import Mathlib

/-
Verification development for the Adobe-1A PDF outline extractor.

The Python source (pdf_extractor/analysis.py, text_extraction.py,
extractor.py, processor.py) is shallow-embedded below:

* Python floats are modelled by exact rationals (all arithmetic performed
  by the program on font sizes is +, -, *, /, comparisons, so the rational
  model is faithful; the unused `std` field, which needs a square root, is
  omitted because no code path read by these claims consumes it).
* Python strings are modelled by Lean `String`; the inputs exercised by
  the program are treated at ASCII level (`str.lower`, `str.istitle`,
  `str.isupper`, `str.strip`, `str.split` are reproduced with their ASCII
  semantics; `unicodedata.normalize("NFKC", ·)` is the identity on ASCII
  and is therefore absorbed into `normalize_text`).
* Regular expressions are embedded with small backtracking matcher
  combinators (`Matcher` below) that enumerate every suffix reachable
  after a match, which reproduces Python `re` backtracking for the
  patterns used by the source.
* Dictionaries holding text blocks, spans and heading candidates become
  structures; a dict key that is absent in every construction site of the
  source (the "bbox" key of heading candidates) is modelled by the field
  `ybox` carrying the default 0 that `dict.get` would produce, and the
  optional "confidence" key is an `Option`.
* Heading levels are stored by the source as the strings "H1"/"H2"/"H3"
  and re-parsed with `int(level[1:])`; the embedding stores the numeric
  part directly.
-/

namespace Adobe1A

/-! ## ASCII character helpers (Python string method semantics) -/

def isAsciiUpper (c : Char) : Bool := 65 ≤ c.toNat && c.toNat ≤ 90

def isAsciiLower (c : Char) : Bool := 97 ≤ c.toNat && c.toNat ≤ 122

def isAsciiLetter (c : Char) : Bool := isAsciiUpper c || isAsciiLower c

def isDigitCh (c : Char) : Bool := 48 ≤ c.toNat && c.toNat ≤ 57

/-- Python `\s` / `str.strip` whitespace set: space, tab, newline, carriage
return, vertical tab, form feed. -/
def isPySpace (c : Char) : Bool :=
  c == ' ' || c == '\t' || c == '\n' || c == '\r' ||
  c == Char.ofNat 11 || c == Char.ofNat 12

/-- Python `\w` word character (ASCII): letter, digit or underscore. -/
def isWordCh (c : Char) : Bool := isAsciiLetter c || isDigitCh c || c == '_'

def lowerCh (c : Char) : Char :=
  if isAsciiUpper c then Char.ofNat (c.toNat + 32) else c

/-- `str.lower()` (ASCII). -/
def strLower (s : String) : String := ⟨s.toList.map lowerCh⟩

/-- `str.startswith` (the byte-position core implementation does not reduce
in the kernel, so prefixes are compared on the character list). -/
def pyStartsWith (s p : String) : Bool := p.toList.isPrefixOf s.toList

/-- `str.endswith`. -/
def pyEndsWith (s p : String) : Bool :=
  p.toList.reverse.isPrefixOf s.toList.reverse

/-- Emptiness of a string. -/
def strIsEmpty (s : String) : Bool := s.toList.isEmpty

/-- `sep.join(parts)`. -/
def joinWith (sep : String) : List String → String
  | [] => ""
  | a :: as => as.foldl (fun acc x => acc ++ sep ++ x) a

/-- `str.strip()`. -/
def pyStrip (s : String) : String :=
  ⟨(((s.toList.dropWhile isPySpace).reverse.dropWhile isPySpace).reverse)⟩

/-- `str.split()` with no argument: split on runs of whitespace. -/
def pySplitAux : List Char → List Char → List String
  | acc, [] => if acc.isEmpty then [] else [⟨acc.reverse⟩]
  | acc, c :: rest =>
    if isPySpace c then
      if acc.isEmpty then pySplitAux [] rest
      else ⟨acc.reverse⟩ :: pySplitAux [] rest
    else pySplitAux (c :: acc) rest

def pySplit (s : String) : List String := pySplitAux [] s.toList

/-- Number of words, `len(text.split())`. -/
def wordCount (s : String) : ℕ := (pySplit s).length

def containsSubAux (needle : List Char) : List Char → Bool
  | [] => needle.isEmpty
  | l@(_ :: t) => needle.isPrefixOf l || containsSubAux needle t

/-- Python substring containment `needle in hay`. -/
def containsSub (needle hay : String) : Bool :=
  containsSubAux needle.toList hay.toList

def containsAnySub (needles : List String) (hay : String) : Bool :=
  needles.any (fun n => containsSub n hay)

/-- `str.count(c)` for a single character. -/
def countCh (c : Char) (s : String) : ℕ :=
  (s.toList.filter (fun x => x == c)).length

/-- `str.istitle()` (ASCII: letters are the cased characters). -/
def pyIsTitleAux : Bool → Bool → List Char → Bool
  | _, seen, [] => seen
  | prevCased, seen, c :: rest =>
    if isAsciiUpper c then
      if prevCased then false else pyIsTitleAux true true rest
    else if isAsciiLower c then
      if prevCased then pyIsTitleAux true seen rest else false
    else pyIsTitleAux false seen rest

def pyIsTitle (s : String) : Bool := pyIsTitleAux false false s.toList

/-- `str.isupper()` (ASCII): at least one cased character and no lowercase. -/
def pyIsUpper (s : String) : Bool :=
  s.toList.any isAsciiUpper && !(s.toList.any isAsciiLower)

/-- `str.isdigit()` (ASCII). -/
def pyIsDigit (s : String) : Bool :=
  !s.toList.isEmpty && s.toList.all isDigitCh

/-- `str.startswith` on any of several literals. -/
def startsWithAny (pres : List String) (s : String) : Bool :=
  pres.any (fun p => pyStartsWith s p)

/-! ## Regular-expression embedding

A `Matcher` sends the input suffix to the list of suffixes remaining after
each possible way the pattern can consume input; this models Python `re`
backtracking exactly for the patterns used by the source.  `re.match`
succeeds when some remainder exists, an end-anchored (`$`) pattern when the
empty remainder is reachable, `re.search` when a match starts at some
position. -/

abbrev Matcher := List Char → List (List Char)

def litM (lit : List Char) : Matcher := fun s =>
  if lit.isPrefixOf s then [s.drop lit.length] else []

def ciPrefix : List Char → List Char → Bool
  | [], _ => true
  | _ :: _, [] => false
  | a :: as, b :: bs => (lowerCh a == lowerCh b) && ciPrefix as bs

/-- Case-insensitive literal (for `re.IGNORECASE` patterns). -/
def litCiM (lit : List Char) : Matcher := fun s =>
  if ciPrefix lit s then [s.drop lit.length] else []

def countLeading (p : Char → Bool) : List Char → ℕ
  | [] => 0
  | c :: rest => if p c then countLeading p rest + 1 else 0

/-- Character class repeated between `lo` and `hi` times (`none` = no upper
bound); enumerates all repetition counts the engine could try. -/
def classM (p : Char → Bool) (lo : ℕ) (hi : Option ℕ) : Matcher := fun s =>
  let avail := countLeading p s
  let top := match hi with | none => avail | some h => min h avail
  if lo ≤ top then
    (List.range (top + 1 - lo)).map (fun j => s.drop (lo + j))
  else []

def seqM (a b : Matcher) : Matcher := fun s => (a s).flatMap b

def altM (a b : Matcher) : Matcher := fun s => a s ++ b s

def altsM (ms : List Matcher) : Matcher := fun s => ms.flatMap (fun m => m s)

def optM (a : Matcher) : Matcher := fun s => s :: a s

/-- One-or-more repetitions of a group, with fuel (each repetition of the
groups used by the source consumes at least one character, so fuel
`length + 1` is exhaustive). -/
def repM (m : Matcher) : ℕ → Matcher
  | 0 => fun _ => []
  | fuel + 1 => fun s => (m s).flatMap (fun s' => s' :: repM m fuel s')

def plusM (m : Matcher) : Matcher := fun s => repM m (s.length + 1) s

/-- `\d+` -/
def digitsM : Matcher := classM isDigitCh 1 none

/-- `\s+` -/
def ws1M : Matcher := classM isPySpace 1 none

/-- `\s*` -/
def ws0M : Matcher := classM isPySpace 0 none

/-- `.*` (anything but newline). -/
def dotStarM : Matcher := classM (fun c => c != '\n') 0 none

/-- `re.match(pat, s)` truthiness for a pattern with no end anchor. -/
def reMatch (m : Matcher) (s : String) : Bool := !(m s.toList).isEmpty

/-- `re.match(pat, s)` truthiness for an end-anchored (`$`) pattern. -/
def reMatchEnd (m : Matcher) (s : String) : Bool :=
  (m s.toList).any List.isEmpty

def searchAux (m : Matcher) : List Char → Bool
  | [] => !(m []).isEmpty
  | l@(_ :: t) => !(m l).isEmpty || searchAux m t

/-- `re.search(pat, s)` truthiness for a pattern with no end anchor. -/
def reSearch (m : Matcher) (s : String) : Bool := searchAux m s.toList

def searchEndAux (m : Matcher) : List Char → Bool
  | [] => (m []).any List.isEmpty
  | l@(_ :: t) => (m l).any List.isEmpty || searchEndAux m t

/-- `re.search(pat, s)` truthiness for an end-anchored pattern. -/
def reSearchEnd (m : Matcher) (s : String) : Bool := searchEndAux m s.toList

/-- `\b word \b` occurring anywhere in the string (what
`re.search(r"\b(w1|w2|...)\b", s)` tests). -/
def containsWordAux (w : List Char) : Option Char → List Char → Bool
  | prev, [] =>
    -- an empty word would match at the end; the source words are nonempty
    (match prev with | none => true | some c => !isWordCh c) && w.isEmpty
  | prev, s@(c :: rest) =>
    ((match prev with | none => true | some p => !isWordCh p) &&
      w.isPrefixOf s &&
      (match (s.drop w.length).head? with
       | none => true
       | some a => !isWordCh a)) ||
    containsWordAux w (some c) rest

def containsWord (w : String) (s : String) : Bool :=
  containsWordAux w.toList none s.toList

def containsWordAny (ws : List String) (s : String) : Bool :=
  ws.any (fun w => containsWord w s)

/-- Single character from a class. -/
def chM (p : Char → Bool) : Matcher := classM p 1 (some 1)

/-- Zero-or-more repetitions of a group. -/
def starM (m : Matcher) : Matcher := fun s => s :: plusM m s

def seqsM (ms : List Matcher) : Matcher :=
  ms.foldr seqM (fun s => [s])

/-! ## The concrete regular expressions of the source -/

/-- `^[A-Z][a-z]+\s+(of|being|drawn|number|account)` -/
def patCapOf : Matcher :=
  seqsM [chM isAsciiUpper, classM isAsciiLower 1 none, ws1M,
    altsM [litM "of".toList, litM "being".toList, litM "drawn".toList,
      litM "number".toList, litM "account".toList]]

/-- `^[A-Z][a-zA-Z\s]+(Government|Service|Department)` -/
def patCapGov : Matcher :=
  seqsM [chM isAsciiUpper, classM (fun c => isAsciiLetter c || isPySpace c) 1 none,
    altsM [litM "Government".toList, litM "Service".toList, litM "Department".toList]]

/-- A title-case word `[A-Z][a-z]+`. -/
def titleWordM : Matcher := seqM (chM isAsciiUpper) (classM isAsciiLower 1 none)

/-- `^[A-Z][a-z]+(\s+[A-Z][a-z]+){2,}$` -/
def patTitleMulti : Matcher :=
  seqsM [titleWordM, seqM ws1M titleWordM, seqM ws1M titleWordM,
    starM (seqM ws1M titleWordM)]

/-- `^Chapter\s+\d+:` with `re.IGNORECASE`. -/
def patChapterNum : Matcher :=
  seqsM [litCiM "chapter".toList, ws1M, digitsM, litM ":".toList]

/-- `^\d+\.\s+Professionals?\s+who` with `re.IGNORECASE`. -/
def patProfWho : Matcher :=
  seqsM [digitsM, litM ".".toList, ws1M, litCiM "professional".toList,
    optM (litCiM "s".toList), ws1M, litCiM "who".toList]

/-- `^\d+\.\s+Junior\s+professional` with `re.IGNORECASE`. -/
def patJuniorProf : Matcher :=
  seqsM [digitsM, litM ".".toList, ws1M, litCiM "junior".toList, ws1M,
    litCiM "professional".toList]

/-- `^\d+\.\s+[A-Z][a-z]+.*?(experience|testing|profession)` with
`re.IGNORECASE` (the character classes become case-insensitive too). -/
def patProfDesc : Matcher :=
  seqsM [digitsM, litM ".".toList, ws1M, chM isAsciiLetter,
    classM isAsciiLetter 1 none, dotStarM,
    altsM [litCiM "experience".toList, litCiM "testing".toList,
      litCiM "profession".toList]]

/-- `^(\d+\.)+\s+[A-Z]` -/
def patNumDotCap : Matcher :=
  seqsM [plusM (seqM digitsM (litM ".".toList)), ws1M, chM isAsciiUpper]

/-- `^(\d+\.\d+)+\s+[A-Z]` -/
def patNumNumCap : Matcher :=
  seqsM [plusM (seqsM [digitsM, litM ".".toList, digitsM]), ws1M, chM isAsciiUpper]

/-- `^(\d+\.\d+\.\d+)+\s+[A-Z]` -/
def patNumNumNumCap : Matcher :=
  seqsM [plusM (seqsM [digitsM, litM ".".toList, digitsM, litM ".".toList, digitsM]),
    ws1M, chM isAsciiUpper]

/-- `^[A-Z]+\.\s+[A-Z]` -/
def patLetterDotCap : Matcher :=
  seqsM [classM isAsciiUpper 1 none, litM ".".toList, ws1M, chM isAsciiUpper]

/-- `^\([a-z]\)\s+[A-Z]` -/
def patParenLowerCap : Matcher :=
  seqsM [litM "(".toList, chM isAsciiLower, litM ")".toList, ws1M, chM isAsciiUpper]

/-- `^(\d+\.)\s+[A-Z]` (the high-confidence main-section override). -/
def patOneNumDotCap : Matcher :=
  seqsM [digitsM, litM ".".toList, ws1M, chM isAsciiUpper]

/-- `^\d+\.` -/
def patNumDotStart : Matcher := seqM digitsM (litM ".".toList)

/-- `^International\s+.*\s+Qualifications?\s+Board$` with `re.IGNORECASE`. -/
def patIntlBoard : Matcher :=
  seqsM [litCiM "international".toList, ws1M, dotStarM, ws1M,
    litCiM "qualification".toList, optM (litCiM "s".toList), ws1M,
    litCiM "board".toList]

/-- `^.*Software\s+Testing.*Foundation.*Level.*Extension.*Qualifications$`
with `re.IGNORECASE`. -/
def patSoftwareTesting : Matcher :=
  seqsM [dotStarM, litCiM "software".toList, ws1M, litCiM "testing".toList,
    dotStarM, litCiM "foundation".toList, dotStarM, litCiM "level".toList,
    dotStarM, litCiM "extension".toList, dotStarM, litCiM "qualifications".toList]

/-- `^Copyright\s+©.*International.*$` with `re.IGNORECASE`. -/
def patCopyrightIntl : Matcher :=
  seqsM [litCiM "copyright".toList, ws1M, litCiM "©".toList, dotStarM,
    litCiM "international".toList, dotStarM]

/-- `^Version\s+\d+.*Page\s+\d+.*of\s+\d+.*$` with `re.IGNORECASE`. -/
def patVersionPage : Matcher :=
  seqsM [litCiM "version".toList, ws1M, digitsM, dotStarM, litCiM "page".toList,
    ws1M, digitsM, dotStarM, litCiM "of".toList, ws1M, digitsM, dotStarM]

/-- `^.*Page\s+\d+\s+of\s+\d+.*\d{4}$` with `re.IGNORECASE`. -/
def patPageOfYear : Matcher :=
  seqsM [dotStarM, litCiM "page".toList, ws1M, digitsM, ws1M,
    litCiM "of".toList, ws1M, digitsM, dotStarM, classM isDigitCh 4 (some 4)]

/-- `^rsvp:\s*[-_]{3,}` -/
def patRsvpDashes : Matcher :=
  seqsM [litM "rsvp:".toList, ws0M, classM (fun c => c == '-' || c == '_') 3 none]

/-- `^\d+\.\s+(name|designation|date|salary|pay|grade|age|relationship)` -/
def patNumFormField : Matcher :=
  seqsM [digitsM, litM ".".toList, ws1M,
    altsM (["name", "designation", "date", "salary", "pay", "grade", "age",
      "relationship"].map (fun w => litM w.toList))]

/-- `^s\.no\s+name\s+age` -/
def patSnoNameAge : Matcher :=
  seqsM [litM "s.no".toList, ws1M, litM "name".toList, ws1M, litM "age".toList]

/-- `^\d+\.\s*(name|designation|date|salary|grade|pay|scale|station|whether|home|amount|details|place)` -/
def patNumDotFormWords : Matcher :=
  seqsM [digitsM, litM ".".toList, ws0M,
    altsM (["name", "designation", "date", "salary", "grade", "pay", "scale",
      "station", "whether", "home", "amount", "details", "place"].map
      (fun w => litM w.toList))]

/-- `^(name|designation|date|salary|grade|pay|scale|station)(\s+of.*)?:?\s*$` -/
def patBareFormWord : Matcher :=
  seqsM [altsM (["name", "designation", "date", "salary", "grade", "pay",
      "scale", "station"].map (fun w => litM w.toList)),
    optM (seqsM [ws1M, litM "of".toList, dotStarM]),
    optM (litM ":".toList), ws0M]

/-- `^date\s+of\s+(entering|joining|birth|appointment)` -/
def patDateOf : Matcher :=
  seqsM [litM "date".toList, ws1M, litM "of".toList, ws1M,
    altsM (["entering", "joining", "birth", "appointment"].map
      (fun w => litM w.toList))]

/-- `^signature\s+of\s+` -/
def patSignatureOf : Matcher :=
  seqsM [litM "signature".toList, ws1M, litM "of".toList, ws1M]

/-- `^\([a-z]\)\s+block\s+for\s+which` -/
def patParenBlockFor : Matcher :=
  seqsM [litM "(".toList, chM isAsciiLower, litM ")".toList, ws1M,
    litM "block".toList, ws1M, litM "for".toList, ws1M, litM "which".toList]

/-- `^block\s+for\s+which` -/
def patBlockFor : Matcher :=
  seqsM [litM "block".toList, ws1M, litM "for".toList, ws1M, litM "which".toList]

/-- `^whether\s+` -/
def patWhether : Matcher := seqM (litM "whether".toList) ws1M

/-- `^\([a-z]\)\s+if\s+` -/
def patParenIf : Matcher :=
  seqsM [litM "(".toList, chM isAsciiLower, litM ")".toList, ws1M,
    litM "if".toList, ws1M]

/-- `^single\s+(rail|bus)\s+fare` -/
def patSingleFare : Matcher :=
  seqsM [litM "single".toList, ws1M, altM (litM "rail".toList) (litM "bus".toList),
    ws1M, litM "fare".toList]

/-- `^headquarters\s+to\s+` -/
def patHeadquartersTo : Matcher :=
  seqsM [litM "headquarters".toList, ws1M, litM "to".toList, ws1M]

/-- `.*\s+\d+\s*$` (used with `re.match`). -/
def patTrailNum : Matcher := seqsM [dotStarM, ws1M, digitsM, ws0M]

/-- `^\d+$` -/
def patAllDigits : Matcher := digitsM

/-- `^(january|...|december)\s+\d{1,2},?\s+\d{4}$` -/
def patMonthDate : Matcher :=
  seqsM [altsM (["january", "february", "march", "april", "may", "june",
      "july", "august", "september", "october", "november", "december"].map
      (fun w => litM w.toList)),
    ws1M, classM isDigitCh 1 (some 2), optM (litM ",".toList), ws1M,
    classM isDigitCh 4 (some 4)]

/-- `re.search(r"\bpage\s*\d+", s)`: a word boundary, the literal `page`,
optional whitespace, then at least one digit. -/
def pageNumAux : Option Char → List Char → Bool
  | _, [] => false
  | prev, s@(c :: rest) =>
    ((match prev with | none => true | some p => !isWordCh p) &&
     "page".toList.isPrefixOf s &&
     (match ((s.drop 4).dropWhile isPySpace).head? with
      | some d => isDigitCh d
      | none => false)) ||
    pageNumAux (some c) rest

def pageNumSearch (s : String) : Bool := pageNumAux none s.toList

/-! ## Numeric helpers (numpy statistics over exact rationals) -/

def ratSort (l : List ℚ) : List ℚ := l.insertionSort (· ≤ ·)

def listMin : List ℚ → ℚ
  | [] => 0
  | h :: t => t.foldl min h

def listMax : List ℚ → ℚ
  | [] => 0
  | h :: t => t.foldl max h

/-- `np.mean`. -/
def meanQ (l : List ℚ) : ℚ := l.sum / (l.length : ℚ)

/-- `np.median`: middle element of the sorted data, or the average of the
two middle elements. -/
def medianQ (l : List ℚ) : ℚ :=
  let s := ratSort l
  let n := s.length
  if n % 2 = 1 then s.getD (n / 2) 0
  else (s.getD (n / 2 - 1) 0 + s.getD (n / 2) 0) / 2

/-- One interpolation segment: the value at fractional position `pos`
inside segment `i`. -/
def interpAt (s : List ℚ) (i : ℕ) (pos : ℚ) : ℚ :=
  match s[i + 1]? with
  | none => s.getD i 0
  | some b =>
    let a := s.getD i 0
    a + (pos - (i : ℚ)) * (b - a)

/-- Linear interpolation into a sorted list at fractional position `pos`
(the numpy default interpolation). -/
def interpSorted (s : List ℚ) (pos : ℚ) : ℚ :=
  interpAt s (Int.toNat ⌊pos⌋) pos

/-- `np.percentile(sorted_data, q)` with linear interpolation. -/
def percentileQ (s : List ℚ) (q : ℚ) : ℚ :=
  interpSorted s (q / 100 * ((s.length : ℚ) - 1))

/-- Python `round` (round half to even). -/
def pyRound (x : ℚ) : ℤ :=
  let f := ⌊x⌋
  let r := x - (f : ℚ)
  if r < 1/2 then f
  else if 1/2 < r then f + 1
  else if f % 2 = 0 then f else f + 1

/-! ## Data model -/

/-- A fitz bounding box `(x0, y0, x1, y1)`. -/
abbrev Bbox := ℚ × ℚ × ℚ × ℚ

def bx0 (b : Bbox) : ℚ := b.1
def by0 (b : Bbox) : ℚ := b.2.1
def bx1 (b : Bbox) : ℚ := b.2.2.1
def by1 (b : Bbox) : ℚ := b.2.2.2

/-- A text block as produced by `extract_text_blocks` (the external PDF
layer); the `spans` key is dropped because no embedded code path reads it. -/
structure TextBlock where
  text : String
  font_size : ℚ
  font : String
  font_flags : ℕ
  page : ℕ
  bbox : Bbox
deriving DecidableEq, Repr

/-- A raw span as collected by `extract_span_level_headings`. -/
structure Span where
  text : String
  font : String
  size : ℚ
  flags : ℕ
  bbox : Bbox
  page : ℕ
deriving DecidableEq, Repr

/-- A heading-candidate dict. The source dicts never carry a `bbox` key, so
the sort key `x.get("bbox", [0,0,0,0])[1]` reads the default; `ybox` models
that value.  The span-level path builds dicts without a `confidence` key,
hence the `Option`. -/
structure Heading where
  text : String
  level : ℕ
  page : ℕ
  font_size : ℚ
  font : String
  confidence : Option ℚ
  ybox : ℚ
deriving DecidableEq, Repr

/-- A flat outline entry `{level, text, page}`. -/
structure OutlineEntry where
  level : ℕ
  text : String
  page : ℕ
deriving DecidableEq, Repr

/-- The parts of the `analyze_font_statistics` dict that the rest of the
program reads: mean, median, the size clusters `(level, min_size,
confidence)` and the three heading thresholds.  (`std` needs a square root
and is read by nobody; the font histograms and percentile list are only
echoed into optional metadata output.) -/
structure FontStats where
  mean : ℚ
  median : ℚ
  size_clusters : List (ℕ × ℚ × ℚ)
  h1 : ℚ
  h2 : ℚ
  h3 : ℚ
deriving DecidableEq, Repr

/-- The `_analyze_document_type` result dict. -/
structure DocProfile where
  total_blocks : ℕ
  total_chars : ℕ
  unique_fonts : ℕ
  font_size_range : ℚ
  dtype : String
  complexity : String
  recommended_strategy : String
deriving DecidableEq, Repr

/-- The configurable `PDFOutlineExtractor` parameters used by the embedded
paths (the custom text-normalization filter list is empty in the default
configuration, which is the configuration all claims exercise). -/
structure Config where
  min_heading_length : ℕ
  max_heading_length : ℕ
  noise_patterns : List String
  structural_words : List String
deriving DecidableEq, Repr

/-- The defaults from `PDFOutlineExtractor.__init__`. -/
def defaultConfig : Config :=
  { min_heading_length := 3
    max_heading_length := 25
    noise_patterns :=
      ["qualifications board", "testing board", "international board",
       "copyright notice", "document may be copied", "source is acknowledged",
       ". *", ".*", "..", "• *", "- *", "* *"]
    structural_words :=
      ["introduction", "background", "summary", "conclusion", "overview",
       "methodology", "results", "discussion", "references", "appendix",
       "timeline", "milestones", "approach", "evaluation",
       "requirements", "preamble", "membership", "meetings", "term",
       "revision", "history", "acknowledgements", "contents", "abstract",
       "objectives", "scope", "definitions", "recommendations"] }

/-! ## analysis.py -/

/-- `analyze_font_statistics` (analysis.py lines 11-116). -/
def analyze_font_statistics (blocks : List TextBlock) : FontStats :=
  let font_sizes := (blocks.map (·.font_size)).filter (fun x => 0 < x)
  if font_sizes.isEmpty then
    { mean := 12, median := 12, size_clusters := [], h1 := 16, h2 := 14, h3 := 12 }
  else
    let mean := meanQ font_sizes
    let median := medianQ font_sizes
    let fmin := listMin font_sizes
    let fmax := listMax font_sizes
    let sortedSizes := ratSort font_sizes
    let size_clusters :=
      if 3 < font_sizes.dedup.length then
        let p95 := percentileQ sortedSizes 95
        let p90 := percentileQ sortedSizes 90
        let p75 := percentileQ sortedSizes 75
        let p50 := percentileQ sortedSizes 50
        let font_variety := (((font_sizes.filter (fun x => 0 < x)).map pyRound).dedup).length
        let size_range := fmax - fmin
        if font_variety ≤ 3 ∧ size_range < 6 then
          [(1, max p75 (median * (13/10)), 9/10),
           (2, max p50 (median * (23/20)), 4/5),
           (3, median * (21/20), 7/10)]
        else if 5 ≤ font_variety ∧ 10 < size_range then
          [(1, max p95 (median * (9/5)), 9/10),
           (2, max p90 (median * (3/2)), 4/5),
           (3, max p75 (median * (13/10)), 7/10)]
        else
          [(1, max p90 (median * (8/5)), 9/10),
           (2, max p75 (median * (7/5)), 4/5),
           (3, max p50 (median * (6/5)), 7/10)]
      else
        [(1, median * (3/2), 7/10),
         (2, median * (13/10), 3/5),
         (3, median * (11/10), 1/2)]
    { mean := mean
      median := median
      size_clusters := size_clusters
      h1 := match size_clusters with
            | c :: _ => c.2.1
            | [] => median * (7/5)
      h2 := match size_clusters with
            | _ :: c :: _ => c.2.1
            | _ => median * (6/5)
      h3 := if 12 < mean then max (mean * (17/20)) 8
            else max (mean * (4/5)) (15/2) }

def bold_patterns : List String :=
  ["bold", "black", "heavy", "demi", "semibold", "extrabold", "boldmt"]

def high_value_words : List String :=
  ["introduction", "conclusion", "abstract", "summary", "overview",
   "background", "options", "pathway", "requirements", "prerequisites"]

def medium_value_words : List String :=
  ["methodology", "results", "discussion", "references", "acknowledgements",
   "table of contents", "revision history", "program", "curriculum", "schedule"]

def section_words : List String :=
  ["appendix", "definitions", "scope", "requirements", "evaluation", "approach"]

def scorerFormWords1 : List String :=
  ["name", "designation", "date", "service", "account", "emoluments",
   "salary", "pay", "grade", "department"]

def scorerFormWords2 : List String :=
  ["present", "current", "basic", "leave", "advance", "grant", "application"]

/-- The `form_field_patterns` table of `calculate_heading_confidence`:
first matching row wins and yields `(score, level)`. -/
def scorerFormField (text_lower : String) : Option (ℚ × ℕ) :=
  if containsWordAny scorerFormWords1 text_lower then some (7/20, 3)
  else if containsWordAny scorerFormWords2 text_lower then some (1/4, 3)
  else if reSearch patCapOf text_lower then some (3/10, 3)
  else if reSearch patCapGov text_lower then some (3/10, 3)
  else if reSearchEnd patTitleMulti text_lower then some (1/5, 3)
  else none

/-- The `chapter_patterns` table: first matching row wins. -/
def chapterPattern (text : String) : Option (ℚ × ℕ) :=
  if reMatch patChapterNum text then some (7/10, 1)
  else if reMatch patProfWho text then some (3/5, 3)
  else if reMatch patJuniorProf text then some (3/5, 3)
  else if reMatch patProfDesc text then some (1/2, 3)
  else none

/-- The `numbered_patterns` table: first matching row wins. -/
def numberedPattern (text : String) : Option (ℚ × ℕ) :=
  if reMatch patNumDotCap text then some (3/5, 1)
  else if reMatch patNumNumCap text then some (1/2, 2)
  else if reMatch patNumNumNumCap text then some (2/5, 3)
  else if reMatch patLetterDotCap text then some (7/20, 2)
  else if reMatch patParenLowerCap text then some (3/10, 3)
  else none

def intro_phrases : List String :=
  ["this section", "the following", "as described", "section covers"]

/-- `analyze_context` (analysis.py lines 317-332). -/
def analyze_context (text : String) (context_blocks : List TextBlock)
    (font_stats : FontStats) : ℚ :=
  let score := (context_blocks.take 3).foldl (fun acc b =>
    let acc := if b.font_size < font_stats.median then acc + 1/20 else acc
    if containsAnySub intro_phrases (strLower b.text) then acc + 1/10 else acc) 0
  min score (1/5)

/-- The size-tier step of `calculate_heading_confidence` (analysis.py lines
145-160): contribution to the confidence and the suggested level. -/
def size_tier (font_size : ℚ) (font_stats : FontStats) : ℚ × ℕ :=
  if font_stats.h1 ≤ font_size then (2/5, 1)
  else if font_stats.h2 ≤ font_size then (3/10, 2)
  else if font_stats.h3 ≤ font_size then (1/4, 3)
  else (-(1/10), 3)

/-- The bold test of `calculate_heading_confidence` (analysis.py lines
162-167): the bold bit of the font flags, or a bold pattern inside the
lowercased font name. -/
def scorerIsBold (font : String) (font_flags : ℕ) : Bool :=
  (font_flags &&& 16 != 0) || containsAnySub bold_patterns (strLower font)

/-- `calculate_heading_confidence` (analysis.py lines 119-314).  Returns
`(confidence, suggested_level)` with the level as the numeric part of the
"H1"/"H2"/"H3" string. -/
def calculate_heading_confidence (text : String) (font_size : ℚ) (font : String)
    (bbox : Bbox) (font_stats : FontStats) (font_flags : ℕ)
    (context_blocks : Option (List TextBlock))
    (structural_words : Option (List String)) : ℚ × ℕ :=
  let structural_words := match structural_words with | some l => l | none => []
  let size_ratio := if 0 < font_stats.median then font_size / font_stats.median else 1
  let st := size_tier font_size font_stats
  let is_bold := scorerIsBold font font_flags
  if 9/5 < size_ratio ∧ is_bold = false then
    (max 0 (st.1 * (3/10)), 3)
  else
    let confidence2 :=
      if 3/2 < size_ratio ∧ is_bold = false then st.1 * (7/10) else st.1
    let sb : ℚ × ℕ :=
      if is_bold then
        let c := confidence2 + 3/10
        if st.2 = 3 ∧ 2/5 < c then (c, 2)
        else if st.2 = 2 ∧ 3/5 < c then (c, 1)
        else (c, st.2)
      else (confidence2, st.2)
    let text_lower := strLower text
    let sv : ℚ × ℕ :=
      match scorerFormField text_lower with
      | some p => p
      | none =>
        if containsAnySub high_value_words text_lower then
          (2/5, if sb.2 = 3 then 1 else sb.2)
        else if containsAnySub medium_value_words text_lower then
          (3/10, if sb.2 = 3 then 2 else sb.2)
        else if containsAnySub section_words text_lower then (1/5, sb.2)
        else if containsAnySub structural_words text_lower then (3/20, sb.2)
        else (0, sb.2)
    let confidence4 := sb.1 + sv.1
    let non_ascii_chars := (text.toList.filter (fun c => 127 < c.toNat)).length
    let confidence5 :=
      if 0 < non_ascii_chars ∧
          3/10 < (non_ascii_chars : ℚ) / (text.length : ℚ) then
        confidence4 + 3/20
      else confidence4
    let confidence6 :=
      if text.length < 8 ∧ (text.length : ℚ) * (1/2) < (non_ascii_chars : ℚ) then
        confidence5 + 1/10
      else confidence5
    let np : ℚ × ℕ :=
      match chapterPattern text with
      | some p => (confidence6 + p.1, p.2)
      | none =>
        match numberedPattern text with
        | some p => (confidence6 + p.1, p.2)
        | none => (confidence6, sv.2)
    let confidence8 := if by0 bbox < 100 then np.1 + 1/10 else np.1
    let wc := wordCount text
    let confidence9 :=
      if 2 ≤ wc ∧ wc ≤ 8 then confidence8 + 1/10
      else if wc = 1 ∧ 3 < text.length then confidence8 + 1/20
      else if 15 < wc then confidence8 - 3/10
      else confidence8
    let confidence10 :=
      if pyIsTitle text then confidence9 + 1/10
      else if pyIsUpper text ∧ wc ≤ 5 then confidence9 + 3/20
      else confidence9
    let cs : ℚ × ℕ :=
      if pyEndsWith text ":" then
        (confidence10 + 1/10, if np.2 = 1 then 2 else np.2)
      else (confidence10, np.2)
    let confidence12 :=
      match context_blocks with
      | some cbs =>
        if cbs.isEmpty then cs.1
        else cs.1 + analyze_context text cbs font_stats
      | none => cs.1
    (min confidence12 1, cs.2)

/-! ## is_noise_with_confidence (analysis.py lines 335-520) -/

/-- The characters of the special-character class
`[-_=+*#@$%^&(){}[\]|\\:;"\x27,.<>?/~\x60!]` (given by code point to keep
the quoting characters out of the source text). -/
def specialChars : List Char :=
  [45, 95, 61, 43, 42, 35, 64, 36, 37, 94, 38, 40, 41, 123, 125, 91, 93,
   124, 92, 58, 59, 34, 39, 44, 46, 60, 62, 63, 47, 126, 96, 33].map Char.ofNat

def form_field_labels : List String :=
  ["Application form for grant of LTC advance",
   "Leave Travel Concession",
   "Terms and Conditions"]

/-- The `document_metadata_patterns` loop. -/
def metadataPatternHit (text : String) : Bool :=
  reMatchEnd patIntlBoard text ||
  reMatchEnd patSoftwareTesting text ||
  reMatchEnd patCopyrightIntl text ||
  reMatchEnd patVersionPage text ||
  reMatchEnd patPageOfYear text

def formNoiseSet : List String :=
  ["s.no", "serial number", "amount", "details", "remarks", "signature",
   "name", "relationship", "date", "designation", "salary", "grade", "pay",
   "service"]

/-- The `basic_noise` disjunction of `is_noise_with_confidence` (analysis.py
lines 439-482), with Python precedence `a and b or c` = `(a ∧ b) ∨ c`. -/
def basicNoise (text : String) : Bool :=
  let tl := strLower text
  reMatch patNumDotFormWords tl ||
  reMatchEnd patBareFormWord tl ||
  reMatch patDateOf tl ||
  reMatch patSignatureOf tl ||
  reMatch patParenBlockFor tl ||
  reMatch patBlockFor tl ||
  reMatch patWhether tl ||
  reMatch patParenIf tl ||
  reMatch patSingleFare tl ||
  reMatch patHeadquartersTo tl ||
  pyEndsWith tl " route." ||
  containsSub "entitled to ltc" tl ||
  containsSub "ltc is to be availed" tl ||
  containsSub "place to be visited" tl ||
  formNoiseSet.contains tl ||
  (tl == "copyright") || pyStartsWith tl "copyright ©" ||
  (reMatchEnd patTrailNum text && decide (15 < text.length) && !(pyStartsWith tl "table")) ||
  decide ((text.length : ℚ) * (3/20) < (countCh '.' text : ℚ)) ||
  pyStartsWith text "©" || pyStartsWith tl "copyright" ||
  reMatchEnd patAllDigits (pyStrip text) ||
  pageNumSearch tl ||
  (pyStartsWith tl "version" && decide (wordCount text ≤ 3)) ||
  pyStartsWith tl "http" ||
  (pyStartsWith tl "www." && decide (20 < text.length)) ||
  (containsSub "page " tl && containsSub "of " tl) ||
  pyEndsWith tl " of " || pyStartsWith tl "page "

/-- `is_noise_with_confidence` (analysis.py lines 335-520).  The ordered
rule chain; the `font_size` and `font_stats` parameters are accepted but —
exactly as in the source — never read. -/
def is_noise_with_confidence (text : String) (font_size : ℚ)
    (font_stats : FontStats) (noise_patterns : Option (List String)) : Bool :=
  let noise_patterns := match noise_patterns with | some l => l | none => []
  let text_stripped := pyStrip text
  if noise_patterns.contains text_stripped then true
  else if text_stripped == "WWW.TOPJUMP.COM" || text_stripped == "ADDRESS:" then false
  else
    let special_chars := text_stripped.toList.filter (fun c => specialChars.contains c)
    let letters := text_stripped.toList.filter isAsciiLetter
    if (0 < special_chars.length && 0 < letters.length) &&
        decide ((1/2 : ℚ) < (special_chars.length : ℚ) / (letters.length : ℚ)) then true
    else if decide (5 < text_stripped.length) &&
        (let unique_chars := (text_stripped.toList.filter (fun c => c != ' ')).dedup
         decide (unique_chars.length ≤ 2) &&
         unique_chars.any (fun c => "-_=+*#".toList.contains c)) then true
    else if form_field_labels.contains text_stripped then false
    else if metadataPatternHit text then true
    else if pyStartsWith (strLower text) "www." || pyStartsWith (strLower text) "http" ||
        containsSub ".com" (strLower text) || containsSub ".org" (strLower text) ||
        containsSub ".net" (strLower text) then true
    else if reMatch patRsvpDashes (strLower text) ||
        containsSub "phone:" (strLower text) ||
        containsSub "email:" (strLower text) then true
    else if reMatch patNumFormField (strLower text) ||
        pyEndsWith (strLower text) "rs." ||
        reMatch patSnoNameAge (strLower text) then true
    else if decide (120 < text.length) && !(reMatch patNumDotStart text) &&
        !(reMatch patChapterNum text) &&
        !(containsAnySub ["professional", "testing", "experience", "methods",
          "techniques"] (strLower text)) then true
    else if (decide (100 < text.length) && decide (15 < wordCount text)) &&
        !(reMatch patNumDotStart text) && !(reMatch patChapterNum text) then true
    else if basicNoise text then true
    else if decide (80 < text.length) && !(reMatch patNumDotStart text) &&
        !(reMatch patChapterNum text) &&
        !(containsAnySub ["introduction", "overview", "summary", "conclusion",
          "principles", "methods", "techniques"] (strLower text)) then true
    else if decide (50 < text.length) &&
        containsAnySub noise_patterns (strLower text) then true
    else if (pyEndsWith (strLower text) ":" && decide (wordCount text ≤ 2)) &&
        containsAnySub ["contact", "email", "phone"] (strLower text) then true
    else if (decide (wordCount text = 1) && decide (text.length < 10)) &&
        containsAnySub ["parkway", "avenue", "street", "road", "suite",
          "floor"] (strLower text) then true
    else if reMatchEnd patMonthDate (strLower text) then true
    else if decide (15 < countCh '-' text) || decide (5 < countCh '_' text) ||
        (decide (((text.toList.filter (fun c => c != ' ' && c != '-')).dedup).length ≤ 2) &&
         decide (8 < text.length)) then
      if !(pyStartsWith (strLower text) "rsvp" &&
           (containsSub ":" text || pyStartsWith (strLower text) "rsvp:")) then true
      else false
    else false

/-! ## text_extraction.py -/

def collapseWsAux : Bool → List Char → List Char
  | _, [] => []
  | prevSpace, c :: rest =>
    if isPySpace c then
      if prevSpace then collapseWsAux true rest
      else ' ' :: collapseWsAux true rest
    else c :: collapseWsAux false rest

/-- `normalize_text` (text_extraction.py lines 14-26): strip, NFKC
normalization (the identity on the ASCII fragment modelled here), collapse
whitespace runs to single spaces.  The custom-filter substitutions are
absent because the default configuration, which every claim exercises, has
an empty filter list. -/
def normalize_text (text : String) : String :=
  ⟨collapseWsAux false (pyStrip text).toList⟩

/-- Font family used by the span consolidator: `font.split('-')[0]`. -/
def fontFamily (f : String) : String :=
  ⟨f.toList.takeWhile (fun c => c != '-')⟩

/-- Sort key of `consolidate_adjacent_spans`:
`(page, bbox[1], bbox[0])` lexicographically. -/
def spanLe (a b : Span) : Prop :=
  a.page < b.page ∨ (a.page = b.page ∧
    (by0 a.bbox < by0 b.bbox ∨ (by0 a.bbox = by0 b.bbox ∧ bx0 a.bbox ≤ bx0 b.bbox)))

instance : DecidableRel spanLe := fun a b => by unfold spanLe; infer_instance

/-- The grouping conditions of the consolidation loop (text_extraction.py
lines 188-221); the y- and size-comparisons are against `current_span`
(the first span of the group), the x-gap against the last span added. -/
def spanGroupOk (first lastSp next : Span) : Bool :=
  (next.page == first.page) &&
  decide (|by0 next.bbox - by0 first.bbox| ≤ max 2 (min 5 (first.size / 8))) &&
  decide (bx0 next.bbox - bx1 lastSp.bbox ≤ max 20 (min 50 (first.size * 2))) &&
  ((next.flags &&& 16) == (first.flags &&& 16)) &&
  decide (|next.size - first.size| < 8) &&
  (fontFamily first.font == fontFamily next.font)

/-- Collect the spans the inner `while` loop would add to
`potential_group`, returning the group tail and the unconsumed rest. -/
def takeGroup (first : Span) : Span → List Span → List Span × List Span
  | _, [] => ([], [])
  | lastSp, next :: rest =>
    if spanGroupOk first lastSp next then
      let (g, r) := takeGroup first next rest
      (next :: g, r)
    else ([], next :: rest)

theorem takeGroup_rest_length (first : Span) :
    ∀ (lastSp : Span) (l : List Span), (takeGroup first lastSp l).2.length ≤ l.length := by
  intro lastSp l
  induction l generalizing lastSp with
  | nil => simp [takeGroup]
  | cons next rest ih =>
    by_cases h : spanGroupOk first lastSp next = true
    · simpa [takeGroup, h] using Nat.le_succ_of_le (ih next)
    · simp [takeGroup, h]

/-- The outer `while` loop of `consolidate_adjacent_spans` as a list of
groups (each group is `potential_group` of one iteration). -/
def consolidateGroups : List Span → List (List Span)
  | [] => []
  | s :: rest =>
    (s :: (takeGroup s s rest).1) :: consolidateGroups (takeGroup s s rest).2
termination_by l => l.length
decreasing_by
  simp only [List.length_cons]
  exact Nat.lt_succ_of_le (takeGroup_rest_length s s rest)

/-- Merged text: joined with spaces except before pure punctuation
(`span["text"] in "!?.,;:"` is Python substring membership). -/
def mergeText : List Span → String
  | [] => ""
  | s :: rest =>
    rest.foldl (fun acc sp =>
      if containsSub sp.text "!?.,;:" then acc ++ sp.text
      else acc ++ " " ++ sp.text) s.text

/-- Emit one group: singletons unchanged, larger groups merged with the
first span's font/flags/page, the average size, and the bbox
`(first.x0, first.y0, last.x1, first.y1)` (text_extraction.py lines
224-259). -/
def emitGroup : List Span → Span
  | [] => { text := "", font := "", size := 0, flags := 0, bbox := (0, 0, 0, 0), page := 0 }
  | [s] => s
  | s :: r :: rest =>
    { text := mergeText (s :: r :: rest)
      font := s.font
      size := ((s :: r :: rest).map (·.size)).sum / (((s :: r :: rest).length : ℕ) : ℚ)
      flags := s.flags
      bbox := (bx0 s.bbox, by0 s.bbox, bx1 ((r :: rest).getLastD s).bbox, by1 s.bbox)
      page := s.page }

/-- `consolidate_adjacent_spans` (text_extraction.py lines 163-262). -/
def consolidate_adjacent_spans (spans : List Span) : List Span :=
  if spans.isEmpty then spans
  else (consolidateGroups (spans.insertionSort spanLe)).map emitGroup

/-- The noise-pattern list hard-coded inside `is_span_heading` (the bullet
entry carries the mojibake bytes of the source file). -/
def spanNoisePatterns : List String :=
  ["qualifications board", "testing board", "international board",
   "copyright notice", "document may be copied", "source is acknowledged",
   ". *", ".*", "..", "â€¢ *", "- *", "* *"]

/-- `re.search(r"[A-Z][a-z]+.*[A-Z]", text)` -/
def patMixedCase : Matcher :=
  seqsM [chM isAsciiUpper, classM isAsciiLower 1 none, dotStarM, chM isAsciiUpper]

/-- `is_span_heading` (text_extraction.py lines 265-334). -/
def is_span_heading (text : String) (font_size : ℚ) (font : String) (bbox : Bbox)
    (font_stats : FontStats) (font_flags : ℕ) : Bool × Option ℕ :=
  if strIsEmpty text || text.length < 3 then (false, none)
  else if is_noise_with_confidence text font_size font_stats (some spanNoisePatterns) then
    (false, none)
  else
    let word_count := wordCount text
    if 10 < word_count then (false, none)
    else
      let is_bold := (font_flags &&& 16 != 0) ||
        containsSub "bold" (strLower font) || containsSub "black" (strLower font)
      let size_ratio := if 0 < font_stats.median then font_size / font_stats.median else 1
      let is_large := decide ((7/5 : ℚ) < size_ratio)
      let is_very_large := decide ((9/5 : ℚ) < size_ratio)
      let is_upper_case := pyIsUpper text
      let mixed_case_pattern := reSearch patMixedCase text
      let has_exclamation := pyEndsWith text "!"
      if (decide (word_count ≤ 3) && !has_exclamation) &&
          containsAnySub ["com", "www", "http", ".org", ".net", "parkway",
            "avenue", "street", "rsvp:"] (strLower text) then (false, none)
      else if (is_bold && is_large) && decide (word_count ≤ 8) then (true, some 1)
      else if (is_very_large && (is_upper_case || mixed_case_pattern)) &&
          decide (word_count ≤ 8) then (true, some 1)
      else if (mixed_case_pattern && (has_exclamation || pyEndsWith text "?")) &&
          decide (3 ≤ word_count) && decide (word_count ≤ 10) then (true, some 1)
      else if is_bold && decide (word_count ≤ 4) then (true, some 3)
      else (false, none)

/-- `extract_span_level_headings` (text_extraction.py lines 103-160); the
raw span stream read from the PDF is the parameter `rawSpans`, whose texts
are normalized and length-filtered exactly as in the collection loop. -/
def extract_span_level_headings (font_stats : FontStats) (rawSpans : List Span) :
    List Heading :=
  let all_spans := (rawSpans.map (fun s => { s with text := normalize_text s.text })).filter
      (fun s => !(strIsEmpty s.text))
  let consolidated := consolidate_adjacent_spans all_spans
  consolidated.foldr (fun s acc =>
    match is_span_heading s.text s.size s.font s.bbox font_stats s.flags with
    | (true, some lvl) =>
      { text := s.text, level := lvl, page := s.page, font_size := s.size,
        font := s.font, confidence := none, ybox := 0 } :: acc
    | _ => acc) []

/-! ## extractor.py -/

/-- `HOPE\s+[A-Za-z\s]+?HERE[!\s]*$` -/
def patHope1 : Matcher :=
  seqsM [litM "HOPE".toList, ws1M,
    classM (fun c => isAsciiLetter c || isPySpace c) 1 none,
    litM "HERE".toList, classM (fun c => c == '!' || isPySpace c) 0 none]

/-- `HOPE[\s\w]+THERE[!\s]*$` -/
def patHope2 : Matcher :=
  seqsM [litM "HOPE".toList,
    classM (fun c => isPySpace c || isWordCh c) 1 none,
    litM "THERE".toList, classM (fun c => c == '!' || isPySpace c) 0 none]

/-- `[A-Z][A-Z\s]+[A-Z][!\.]*\s*$` -/
def patCaps3 : Matcher :=
  seqsM [chM isAsciiUpper, classM (fun c => isAsciiUpper c || isPySpace c) 1 none,
    chM isAsciiUpper, classM (fun c => c == '!' || c == '.') 0 none, ws0M]

/-- `[A-Z]{3,}[A-Z\s!\.]*[A-Z][!\.\s]*$` -/
def patCaps4 : Matcher :=
  seqsM [classM isAsciiUpper 3 none,
    classM (fun c => isAsciiUpper c || isPySpace c || c == '!' || c == '.') 0 none,
    chM isAsciiUpper, classM (fun c => c == '!' || c == '.' || isPySpace c) 0 none]

/-- Leftmost position at which an end-anchored pattern matches; the
returned suffix is `match.group(0)` (these four patterns are `$`-anchored,
so every match extends to the end of the string). -/
def leftmostEndMatch (m : Matcher) : List Char → Option (List Char)
  | [] => if (m []).any List.isEmpty then some [] else none
  | l@(_ :: t) => if (m l).any List.isEmpty then some l else leftmostEndMatch m t

def tryHeadingPattern (m : Matcher) (t : List Char) : Option String :=
  match leftmostEndMatch m t with
  | some grp =>
    let ph := pyStrip ⟨grp⟩
    if 5 ≤ ph.length ∧ ph.length ≤ 50 then some ph else none
  | none => none

/-- `extract_heading_from_text` (extractor.py lines 179-205). -/
def extract_heading_from_text (text : String) : Option String :=
  let t := (pyStrip text).toList
  match tryHeadingPattern patHope1 t with
  | some h => some h
  | none =>
    match tryHeadingPattern patHope2 t with
    | some h => some h
    | none =>
      match tryHeadingPattern patCaps3 t with
      | some h => some h
      | none => tryHeadingPattern patCaps4 t

/-- `^\d+\.\s+Professional` with `re.IGNORECASE`. -/
def patNumProfessional : Matcher :=
  seqsM [digitsM, litM ".".toList, ws1M, litCiM "professional".toList]

/-- `re.search(r"professional.*testing.*experience", text, re.IGNORECASE)` -/
def patProfTestExp : Matcher :=
  seqsM [litCiM "professional".toList, dotStarM, litCiM "testing".toList,
    dotStarM, litCiM "experience".toList]

/-- `re.search(r"\d+\.\s+.*?\d+\.\s+.*?\d+\.", text)` -/
def patThreeNumbered : Matcher :=
  seqsM [digitsM, litM ".".toList, ws1M, dotStarM, digitsM, litM ".".toList,
    ws1M, dotStarM, digitsM, litM ".".toList]

/-- The `form_field_patterns` list of `is_heading` (extractor.py lines
311-319), tested with `any(re.search(p, text_lower) ...)`. -/
def isHeadingFormPatterns (text_lower : String) : Bool :=
  containsWordAny scorerFormWords1 text_lower ||
  containsWordAny scorerFormWords2 text_lower ||
  reSearch patCapOf text_lower ||
  reSearch patCapGov text_lower

/-- The literal structural-heading list of `is_heading` (lines 330-332). -/
def structuralLiterals : List String :=
  ["introduction", "conclusion", "summary", "overview", "background",
   "acknowledgements", "table of contents", "revision history", "references",
   "methodology", "results", "discussion", "appendix", "goals",
   "mission statement"]

/-- `len(context_blocks) if context_blocks else 100` (Python truthiness:
`None` and the empty list both fall back to 100). -/
def totalBlocksOf (context_blocks : Option (List TextBlock)) : ℕ :=
  match context_blocks with
  | some cbs => if cbs.isEmpty then 100 else cbs.length
  | none => 100

/-- The flyer-marker disjunction shared by `is_heading` (lines 355-361 and
267-272). -/
def flyerMarkers (tl : String) : Bool :=
  pyStartsWith tl "www." || pyEndsWith tl ".com" || pyStartsWith tl "address:" ||
  pyStartsWith tl "rsvp:" || containsSub "hope to see" tl ||
  (containsSub "required" tl &&
    (containsSub "shoes" tl || containsSub "climbing" tl))

/-- `is_heading` (extractor.py lines 207-368).  Returns
`(is_heading, level, actual_heading_text)`. -/
def is_heading (cfg : Config) (text : String) (font_size : ℚ) (font : String)
    (bbox : Bbox) (font_stats : FontStats) (page_width : ℚ) (font_flags : ℕ)
    (context_blocks : Option (List TextBlock)) :
    Bool × Option ℕ × Option String :=
  let original_text := text
  let text := normalize_text text
  if strIsEmpty text || text.length < cfg.min_heading_length then (false, none, none)
  else
    let word_count := wordCount text
    let max_words :=
      if reMatch patNumProfessional text || reSearch patProfTestExp text ||
          reSearch patThreeNumbered text then 150
      else if reMatch patChapterNum text then 50
      else if containsSub "hope" (strLower text) &&
          (containsSub "see" (strLower text) || containsSub "there" (strLower text)) then 50
      else cfg.max_heading_length
    if max_words < word_count ∨ word_count < 1 then (false, none, none)
    else if is_noise_with_confidence text font_size font_stats (some cfg.noise_patterns) then
      match extract_heading_from_text original_text with
      | some extracted =>
        if is_noise_with_confidence extracted font_size font_stats
            (some cfg.noise_patterns) then (false, none, none)
        else
          let (confidence, suggested_level) := calculate_heading_confidence extracted
            font_size font bbox font_stats font_flags context_blocks
            (some cfg.structural_words)
          let total_blocks := totalBlocksOf context_blocks
          let confidence_threshold : ℚ :=
            if 100 < total_blocks then 1/2 else if 50 < total_blocks then 2/5 else 3/10
          let confidence_threshold :=
            if flyerMarkers (strLower extracted) then confidence_threshold - 3/10
            else confidence_threshold
          if confidence_threshold ≤ confidence then (true, some suggested_level, some extracted)
          else (false, none, none)
      | none => (false, none, none)
    else
      let (confidence, suggested_level) := calculate_heading_confidence text font_size
        font bbox font_stats font_flags context_blocks (some cfg.structural_words)
      if 9/10 ≤ confidence ∧ reMatch patOneNumDotCap text = true ∧ 3 ≤ word_count then
        (true, some suggested_level, some text)
      else
        let total_blocks := totalBlocksOf context_blocks
        let confidence_threshold : ℚ :=
          if 100 < total_blocks then 1/2 else if 50 < total_blocks then 2/5 else 3/10
        let tl := strLower text
        let confidence_threshold :=
          if isHeadingFormPatterns tl then confidence_threshold - 2/5
          else if reMatch patNumDotCap text || reMatch patNumNumCap text then
            confidence_threshold - 3/10
          else if structuralLiterals.contains (pyStrip tl) then confidence_threshold - 3/10
          else if pyStartsWith tl "introduction to" || pyStartsWith tl "overview of" ||
              pyStartsWith tl "mission statement" || pyEndsWith tl " pathway" ||
              pyEndsWith tl " options" ||
              (pyEndsWith text ":" && decide (wordCount text ≤ 3)) then
            confidence_threshold - 1/4
          else if containsSub "pathway" tl || containsSub "regular pathway" tl ||
              containsSub "distinction pathway" tl || tl == "pathway options" then
            confidence_threshold - 3/10
          else if flyerMarkers tl then confidence_threshold - 3/10
          else confidence_threshold
        if confidence_threshold ≤ confidence then (true, some suggested_level, some text)
        else (false, none, none)

/-- `is_form_document` keyword tables (extractor.py lines 430-433). -/
def form_keywords : List String := ["application", "form", "advance", "grant", "ltc"]

def form_fields : List String :=
  ["name", "designation", "date", "salary", "grade", "pay", "station"]

def formPatternsList : List String :=
  ["s.no", "serial number", "amount", "details", "remarks"]

/-- `" ".join(lowercased block texts)`. -/
def allBlockText (blocks : List TextBlock) : String :=
  joinWith " " (blocks.map (fun b => strLower b.text))

/-- `sum(1 for field in form_fields if field in all_text)`. -/
def formFieldCount (blocks : List TextBlock) : ℕ :=
  (form_fields.filter (fun f => containsSub f (allBlockText blocks))).length

def formPatternCount (blocks : List TextBlock) : ℕ :=
  (formPatternsList.filter (fun p => containsSub p (allBlockText blocks))).length

/-- `is_form_document` (extractor.py lines 423-446). -/
def is_form_document (blocks : List TextBlock) (title : String) : Bool :=
  if containsAnySub form_keywords (strLower title) then
    decide (4 ≤ formFieldCount blocks) || decide (2 ≤ formPatternCount blocks)
  else false

/-- `_analyze_document_type` (extractor.py lines 370-421). -/
def analyze_document_type (blocks : List TextBlock) (title : String) : DocProfile :=
  let total_chars := (blocks.map (fun b => b.text.length)).sum
  let unique_fonts := ((blocks.map (·.font)).dedup).length
  let font_sizes := blocks.map (·.font_size)
  let font_size_range := if font_sizes.isEmpty then 0 else listMax font_sizes - listMin font_sizes
  let base := fun (t c s : String) =>
    ({ total_blocks := blocks.length, total_chars := total_chars,
       unique_fonts := unique_fonts, font_size_range := font_size_range,
       dtype := t, complexity := c, recommended_strategy := s } : DocProfile)
  if total_chars < 400 ∧ blocks.length < 6 then base "simple" "low" "span_preferred"
  else if 15000 < total_chars ∨ 100 < blocks.length then base "complex" "high" "block_preferred"
  else if is_form_document blocks title then base "form" "low" "minimal"
  else if 6 ≤ blocks.length ∧ 1000 < total_chars then base "standard" "medium" "block_preferred"
  else if blocks.length = 6 ∧ total_chars < 500 then base "flyer" "low" "block_preferred"
  else base "standard" "medium" "hybrid"

/-- `extract_title` candidate tables (extractor.py lines 485-496, 509). -/
def title_indicators : List String :=
  ["rfp", "request", "proposal", "report", "manual", "guide", "policy",
   "procedure", "specification", "document"]

def business_terms : List String :=
  ["parkway", "avenue", "street", "road", "drive", "suite", "floor"]

def legal_terms : List String :=
  ["copyright", "document may be copied", "acknowledged", "proprietary"]

def non_title_indicators : List String :=
  ["shoes", "climbing", "required", "closed", "open", "hours"]

/-- The candidate filter of `extract_title` (lines 467-475). -/
def titleCandidateOk (cfg : Config) (text : String) : Bool :=
  decide (cfg.min_heading_length ≤ text.length) &&
  decide (wordCount text ≤ 20) &&
  !(reMatchEnd patAllDigits (pyStrip text)) &&
  !(pyStartsWith (strLower text) "http") &&
  !(pyStartsWith (strLower text) "www.") &&
  !(pyEndsWith (strLower text) "address:") &&
  !(pyStartsWith (strLower text) "rsvp:") &&
  !(decide (10 < countCh '-' text)) &&
  !(["page", "chapter", "section"].contains (strLower text))

/-- The candidate score of `extract_title` (lines 477-500). -/
def titleScore (block : TextBlock) (text : String) (font_stats : FontStats) : ℚ :=
  let score : ℚ := 0
  let score := score +
    (if 0 < font_stats.median then block.font_size / font_stats.median else 1)
  let score := score + (if by0 block.bbox < 150 then 3 else 0)
  let score := score + (if containsSub "bold" (strLower block.font) then 2 else 0)
  let score := score + (if pyIsTitle block.text || pyIsUpper block.text then 1 else 0)
  let score := score + (if containsAnySub title_indicators (strLower text) then 5 else 0)
  let score := score +
    (if pyStartsWith text "RFP:" || containsSub "Request for Proposal" text then 10 else 0)
  if containsAnySub business_terms (strLower text) ||
     containsAnySub legal_terms (strLower text) || 15 < wordCount text then
    score - 10
  else score

/-- Python `max(candidates, key=lambda x: x[0])`: the first candidate with
the maximal score. -/
def pickMaxFirst : List (ℚ × String) → Option (ℚ × String)
  | [] => none
  | h :: t => some (t.foldl (fun best x => if best.1 < x.1 then x else best) h)

/-- The relaxed fallback filter of `extract_title` (lines 517-524). -/
def fallbackCandidateOk (text : String) : Bool :=
  !(strIsEmpty text) && decide (wordCount text ≤ 30) &&
  !(decide (10 < countCh '-' text)) &&
  !(pyStartsWith (strLower text) "rsvp:") &&
  !(pyStartsWith (strLower text) "www.") &&
  !(pyStartsWith (strLower text) "address:") &&
  !(containsAnySub ["parkway", "avenue", "street", "suite", "forge", "tn "]
      (strLower text))

/-- `extract_title` (extractor.py lines 448-547). -/
def extract_title (cfg : Config) (blocks : List TextBlock)
    (font_stats : FontStats) : String :=
  let first_page_blocks := blocks.filter (fun b => b.page == 0)
  if first_page_blocks.isEmpty then "Untitled"
  else
    let candidates := first_page_blocks.filterMap (fun b =>
      let text := pyStrip b.text
      if titleCandidateOk cfg text then some (titleScore b text font_stats, text)
      else none)
    match pickMaxFirst candidates with
    | some best =>
      if containsAnySub non_title_indicators (strLower best.2) then ""
      else if strIsEmpty (pyStrip best.2) then "" else best.2
    | none =>
      let fallback_candidates :=
        (first_page_blocks.map (fun b => pyStrip b.text)).filter fallbackCandidateOk
      if fallback_candidates.isEmpty then ""
      else if fallback_candidates.any (fun c =>
          containsSub "topjump" (strLower c) || containsSub "party" (strLower c) ||
          containsSub "climbing" (strLower c) ||
          (containsSub "hope" (strLower c) && containsSub "see" (strLower c)) ||
          containsSub "www." (strLower c)) then "TopJump Party Invitation"
      else
        let all_text := joinWith " " (first_page_blocks.map (fun b => strLower b.text))
        if (containsSub "topjump" all_text &&
            (containsSub "party" all_text || containsSub "climbing" all_text)) ||
           (containsSub "hope" all_text && containsSub "see" all_text &&
            containsSub "there" all_text) then "TopJump Party Invitation"
        else fallback_candidates.headD ""

/-- `build_flat_outline` (extractor.py lines 549-570). -/
def build_flat_outline (outline : List Heading) : List OutlineEntry :=
  if outline.isEmpty then []
  else outline.map (fun h => { level := h.level, text := h.text, page := h.page })

/-- The pass-1 / pass-2 dedup key `(text.lower(), page, level)`. -/
abbrev HKey := String × ℕ × ℕ

/-- The context window `blocks[max(0, i-2) : i+3]`. -/
def ctxWindow (blocks : List TextBlock) (i : ℕ) : List TextBlock :=
  (blocks.take (i + 3)).drop (i - 2)

/-- `_multi_pass_heading_detection` (extractor.py lines 692-765). -/
def multi_pass_heading_detection (cfg : Config) (blocks : List TextBlock)
    (font_stats : FontStats) (page_width : ℚ) : List Heading :=
  let total_chars := (blocks.map (fun b => b.text.length)).sum
  let unique_fonts := ((blocks.map (·.font)).dedup).length
  let step1 := fun (st : List Heading × List HKey) (ib : ℕ × TextBlock) =>
    let context_blocks := ctxWindow blocks ib.1
    match is_heading cfg ib.2.text ib.2.font_size ib.2.font ib.2.bbox font_stats
        page_width ib.2.font_flags (some context_blocks) with
    | (true, some level, heading_text) =>
      let final_text := match heading_text with | some t => t | none => ib.2.text
      let key : HKey := (strLower final_text, ib.2.page, level)
      if st.2.contains key then st
      else
        let h : Heading :=
          { text := final_text, level := level, page := ib.2.page,
            font_size := ib.2.font_size, font := ib.2.font,
            confidence := some (4/5), ybox := 0 }
        (st.1 ++ [h], st.2 ++ [key])
    | _ => st
  let pass1 := blocks.enum.foldl step1 ([], [])
  let min_headings_threshold : ℕ :=
    if 5000 < total_chars then 3 else if 1000 < total_chars then 2 else 1
  if pass1.1.length < min_headings_threshold then
    let step2 := fun (st : List Heading × List HKey) (block : TextBlock) =>
      if st.1.any (fun h => strLower h.text == strLower block.text) then st
      else if is_noise_with_confidence block.text block.font_size font_stats
          (some cfg.noise_patterns) then st
      else
        let (confidence, suggested_level) := calculate_heading_confidence block.text
          block.font_size block.font block.bbox font_stats block.font_flags none
          (some cfg.structural_words)
        let threshold : ℚ :=
          if total_chars < 1000 then 1/4
          else if unique_fonts ≤ 3 then 3/10
          else 7/20
        if threshold ≤ confidence then
          let key : HKey := (strLower block.text, block.page, suggested_level)
          if st.2.contains key then st
          else
            let h : Heading :=
              { text := block.text, level := suggested_level, page := block.page,
                font_size := block.font_size, font := block.font,
                confidence := some confidence, ybox := 0 }
            (st.1 ++ [h], st.2 ++ [key])
        else st
    (blocks.foldl step2 pass1).1
  else pass1.1

/-! ## Post-processing (extractor.py lines 943-1014) -/

/-- The sort key of a heading candidate:
`(page, x.get("bbox", [0,0,0,0])[1])`. -/
def hkey (h : Heading) : ℕ × ℚ := (h.page, h.ybox)

/-- Lexicographic comparison of sort keys (the order of a Python tuple
sort). -/
def keyPairLe (a b : ℕ × ℚ) : Prop :=
  a.1 < b.1 ∨ (a.1 = b.1 ∧ a.2 ≤ b.2)

instance : DecidableRel keyPairLe := fun a b => by
  unfold keyPairLe; infer_instance

instance : IsTotal (ℕ × ℚ) keyPairLe := by
  constructor
  intro a b
  unfold keyPairLe
  rcases Nat.lt_trichotomy a.1 b.1 with h | h | h
  · exact Or.inl (Or.inl h)
  · rcases le_total a.2 b.2 with h' | h'
    · exact Or.inl (Or.inr ⟨h, h'⟩)
    · exact Or.inr (Or.inr ⟨h.symm, h'⟩)
  · exact Or.inr (Or.inl h)

instance : IsTrans (ℕ × ℚ) keyPairLe := by
  constructor
  intro a b c hab hbc
  unfold keyPairLe at *
  rcases hab with h | ⟨hpe, hy⟩
  · rcases hbc with h' | ⟨hpe', _⟩
    · exact Or.inl (h.trans h')
    · exact Or.inl (hpe' ▸ h)
  · rcases hbc with h' | ⟨hpe', hy'⟩
    · exact Or.inl (hpe ▸ h')
    · exact Or.inr ⟨hpe.trans hpe', hy.trans hy'⟩

/-- The heading sort relation used by `_post_process_headings` and
`_remove_duplicates`. -/
def headingKeyLe (a b : Heading) : Prop := keyPairLe (hkey a) (hkey b)

instance : DecidableRel headingKeyLe := fun a b => by
  unfold headingKeyLe; infer_instance

instance : IsTotal Heading headingKeyLe :=
  ⟨fun a b => total_of keyPairLe (hkey a) (hkey b)⟩

instance : IsTrans Heading headingKeyLe :=
  ⟨fun _ _ _ hab hbc => Trans.trans (r := keyPairLe) hab hbc⟩

/-- The title-removal predicate of `_post_process_headings` (lines
949-954) on a heading text: keep it unless it equals, or
substring-overlaps (with the 10-character guards), the lowercased stripped
title. -/
def titleKeepText (title_lower : String) (t : String) : Bool :=
  let ht := strLower (pyStrip t)
  !(ht == title_lower) &&
  !(decide (10 < (pyStrip t).length) && containsSub ht title_lower) &&
  !(decide (10 < title_lower.length) && containsSub title_lower ht)

def titleKeep (title_lower : String) (h : Heading) : Bool :=
  titleKeepText title_lower h.text

/-- The walk of `_validate_hierarchy` with the running `last_level`. -/
def validateAux (last : ℕ) : List Heading → List Heading
  | [] => []
  | h :: t =>
    if last + 1 < h.level ∧ 0 < last then
      { h with level := min h.level (last + 1) } :: validateAux (min h.level (last + 1)) t
    else h :: validateAux h.level t

/-- `_validate_hierarchy` (extractor.py lines 967-989). -/
def validate_hierarchy (outline : List Heading) : List Heading :=
  if outline.length ≤ 1 then outline else validateAux 0 outline

def lowerText (h : Heading) : String := strLower h.text

/-- Grouping by lowercased text with `defaultdict` insertion order. -/
def addToGroups (gs : List (String × List Heading)) (k : String) (h : Heading) :
    List (String × List Heading) :=
  match gs with
  | [] => [(k, [h])]
  | g :: rest =>
    if g.1 == k then (g.1, g.2 ++ [h]) :: rest
    else g :: addToGroups rest k h

def gatherGroups (l : List Heading) : List (String × List Heading) :=
  l.foldl (fun gs h => addToGroups gs (lowerText h) h) []

/-- `h.get("confidence", 0)`. -/
def confOf (h : Heading) : ℚ := match h.confidence with | some c => c | none => 0

/-- `headings[0] if len == 1 else max(headings, key=confidence)` — Python
`max` keeps the first element among ties. -/
def pickBest : List Heading → Heading
  | [] => { text := "", level := 0, page := 0, font_size := 0, font := "",
            confidence := none, ybox := 0 }
  | h :: t =>
    if t.isEmpty then h
    else t.foldl (fun best x => if confOf best < confOf x then x else best) h

/-- `_remove_duplicates` (extractor.py lines 991-1014). -/
def remove_duplicates (outline : List Heading) : List Heading :=
  if outline.isEmpty then outline
  else ((gatherGroups outline).map (fun g => pickBest g.2)).insertionSort headingKeyLe

/-- The title-removal step of `_post_process_headings` (lines 949-954):
the list comprehension runs only when the stripped title is nonempty. -/
def titleFiltered (outline : List Heading) (title : String) : List Heading :=
  if !(strIsEmpty (pyStrip title)) then
    outline.filter (titleKeep (strLower (pyStrip title)))
  else outline

/-- `_post_process_headings` (extractor.py lines 943-965). -/
def post_process_headings (outline : List Heading) (title : String)
    (font_stats : FontStats) : List Heading :=
  if outline.isEmpty then outline
  else
    remove_duplicates (validate_hierarchy
      ((titleFiltered outline title).insertionSort headingKeyLe))

/-! ## Strategy selection (extractor.py lines 767-941) -/

def structuralPatternsQuality : List String :=
  ["introduction", "conclusion", "summary", "overview", "references",
   "table of contents", "background", "methodology", "results", "discussion"]

/-- `_calculate_outline_quality` (extractor.py lines 801-861). -/
def calculate_outline_quality (outline : List OutlineEntry)
    (blocks : List TextBlock) (title : String) (method : String) : ℚ :=
  if outline.isEmpty then 0
  else
    let score : ℚ := (outline.length : ℚ) * (1/2)
    let levels := outline.map (·.level)
    let score := score + (if levels.contains 1 then 2 else 0)
    let score := score + (if levels.contains 2 then 1 else 0)
    let score := score + (if levels.contains 3 then 1/2 else 0)
    let score := score + (outline.map (fun item =>
      if containsAnySub structuralPatternsQuality (strLower item.text) then (1 : ℚ)
      else 0)).sum
    let score :=
      if (blocks.length : ℚ) * (4/5) < (outline.length : ℚ) then score * (3/10) else score
    let total_chars := (blocks.map (fun b => b.text.length)).sum
    let score := if total_chars < 1000 ∧ method == "span" then score * (3/2) else score
    let score := if 5000 < total_chars ∧ method == "block" then score * (6/5) else score
    if method == "span" ∧ outline.any (fun i =>
        containsSub "hope" (strLower i.text) || containsSub "see you" (strLower i.text)) then
      score + 3
    else score

/-- `_select_best_extraction` (extractor.py lines 767-799). -/
def select_best_extraction (block_outline span_outline : List OutlineEntry)
    (blocks : List TextBlock) (title : String) : List OutlineEntry :=
  if block_outline.isEmpty && !span_outline.isEmpty then span_outline
  else if span_outline.isEmpty && !block_outline.isEmpty then block_outline
  else if block_outline.isEmpty && span_outline.isEmpty then []
  else
    let block_score := calculate_outline_quality block_outline blocks title "block"
    let span_score := calculate_outline_quality span_outline blocks title "span"
    if block_score < span_score then span_outline else block_outline

def meaningfulPatterns : List String :=
  ["introduction", "conclusion", "summary", "background", "overview",
   "methodology", "results", "discussion", "references", "abstract",
   "pathway", "options", "requirements", "hope", "see you", "there"]

/-- `_has_meaningful_content` (extractor.py lines 920-941). -/
def has_meaningful_content (outline : List OutlineEntry) : Bool :=
  if outline.isEmpty then false
  else
    let meaningful_count := (outline.filter (fun item =>
      decide (3 < item.text.length) && !(pyIsDigit item.text) &&
      containsAnySub meaningfulPatterns (strLower item.text))).length
    decide (max 1 ((outline.length : ℚ) * (3/10)) ≤ (meaningful_count : ℚ))

/-- `_smart_extraction_strategy` (extractor.py lines 863-918); the raw span
stream the span-level extractor would read from the PDF is `rawSpans`. -/
def smart_extraction_strategy (cfg : Config) (block_outline : List OutlineEntry)
    (blocks : List TextBlock) (font_stats : FontStats) (title : String)
    (doc_info : DocProfile) (rawSpans : List Span) : List OutlineEntry :=
  if doc_info.recommended_strategy == "minimal" then []
  else if doc_info.recommended_strategy == "span_preferred" then
    let span_outline := extract_span_level_headings font_stats rawSpans
    let span_outline := post_process_headings span_outline title font_stats
    let span_flat_outline := build_flat_outline span_outline
    if !span_flat_outline.isEmpty && has_meaningful_content span_flat_outline then
      span_flat_outline
    else block_outline
  else if doc_info.recommended_strategy == "block_preferred" then
    if !block_outline.isEmpty && decide (3 ≤ block_outline.length) then block_outline
    else
      let span_outline := extract_span_level_headings font_stats rawSpans
      let span_outline := post_process_headings span_outline title font_stats
      build_flat_outline span_outline
  else
    let span_outline := extract_span_level_headings font_stats rawSpans
    let span_outline := post_process_headings span_outline title font_stats
    let span_flat_outline := build_flat_outline span_outline
    select_best_extraction block_outline span_flat_outline blocks title

/-- The final `{title, outline}` output. -/
structure TitleOutline where
  title : String
  outline : List OutlineEntry
deriving DecidableEq, Repr

/-- The pure classification core of `extract_outline` (extractor.py lines
572-690): everything between PDF validation / raw text extraction (whose
outputs are the parameters `blocks`, `rawSpans` and `page_width`) and
output serialization / statistics bookkeeping. -/
def extract_outline_core (cfg : Config) (blocks : List TextBlock)
    (rawSpans : List Span) (page_width : ℚ) : TitleOutline :=
  let font_stats := analyze_font_statistics blocks
  let outline := multi_pass_heading_detection cfg blocks font_stats page_width
  let title := extract_title cfg blocks font_stats
  let doc_info := analyze_document_type blocks title
  let outline := post_process_headings outline title font_stats
  if is_form_document blocks title then
    { title := title, outline := build_flat_outline outline }
  else
    { title := title,
      outline := smart_extraction_strategy cfg (build_flat_outline outline) blocks
        font_stats title doc_info rawSpans }

/-! ## processor.py -/

structure DocResult where
  title : String
  outline : List OutlineEntry
deriving DecidableEq, Repr

structure SingleResult where
  filename : String
  status : String
  cached : Option Bool
  error : Option String
  title : String
  outline : List OutlineEntry
deriving DecidableEq, Repr

/-- `process_single_pdf` (processor.py lines 17-79).  `cached` is the
outcome of the `_is_cached` probe (`some r` iff both `is_cached` and
`cached_result` are truthy) and `extract` the outcome of
`extract_outline`, with a raised exception modelled as `Except.error` of
its message.  The cache write-back mutates only the cache dict and is
invisible in the returned result. -/
def process_single_pdf (filename : String) (cached : Option DocResult)
    (extract : Except String DocResult) : SingleResult :=
  match cached with
  | some r =>
    { filename := filename, status := "success", cached := some true,
      error := none, title := r.title, outline := r.outline }
  | none =>
    match extract with
    | .ok r =>
      { filename := filename, status := "success", cached := some false,
        error := none, title := r.title, outline := r.outline }
    | .error e =>
      { filename := filename, status := "error", cached := none,
        error := some e, title := "", outline := [] }

/-- The sequential branch of `process_pdfs_advanced` (processor.py lines
176-190): one `process_single_pdf` call per document, results collected in
order. -/
def processBatch
    (docs : List (String × Option DocResult × Except String DocResult)) :
    List SingleResult :=
  docs.map (fun d => process_single_pdf d.1 d.2.1 d.2.2)

/-! ## Concrete documents used by witnesses and counterexamples -/

/-- A three-block application-form document: the title selector picks
"Application Form", the corpus mentions four of the form-field words. -/
def c1Blocks : List TextBlock :=
  [{ text := "Application Form", font_size := 20, font := "Helvetica-Bold",
     font_flags := 16, page := 0, bbox := (50, 50, 300, 70) },
   { text := "Name Designation Date Salary", font_size := 10, font := "Helvetica",
     font_flags := 0, page := 0, bbox := (50, 200, 300, 215) },
   { text := "Overview", font_size := 20, font := "Helvetica",
     font_flags := 0, page := 0, bbox := (50, 300, 150, 320) }]

def fillerText1 : String :=
  "the quarterly data was reviewed and archived for later use by the records team while additional copies were stored off site pending further checks and routine audits during the year with all folders labeled and indexed by the clerks before the final transfer"

def fillerText2 : String :=
  "every carton was weighed and sealed by the supply group and the ledgers were updated to reflect each movement between rooms while the duty roster was adjusted so that coverage remained steady across the whole period without any gaps in the daily routine there"

def fillerText3 : String :=
  "a short memo was circulated to remind the staff that the archive room would stay locked outside business hours and that requests for retrieval should be logged with the front desk well in advance so the runners could gather the needed folders without delays"

def fillerText4 : String :=
  "the annual tally of supplies was completed by the stores group and the totals were entered into the master ledger while worn equipment was set aside for repair and the remaining items were returned to the shelves in their usual order for the coming months"

/-- A nine-block report whose final pipeline outline is
`[H1 "Gamma Delta", H3 "Epsilon Theta", H3 "Sigma Lambda"]`: deduplication
removes the only H2 between the H1 and the first H3. -/
def c3Blocks : List TextBlock :=
  [{ text := "Project Report Document", font_size := 30, font := "Arial-Bold",
     font_flags := 16, page := 0, bbox := (40, 40, 400, 70) },
   { text := "Gamma Delta", font_size := 30, font := "Arial-Bold",
     font_flags := 16, page := 0, bbox := (40, 200, 300, 230) },
   { text := fillerText1, font_size := 10, font := "Arial",
     font_flags := 0, page := 0, bbox := (40, 400, 500, 500) },
   { text := fillerText2, font_size := 10, font := "Arial",
     font_flags := 0, page := 1, bbox := (40, 50, 500, 150) },
   { text := "Gamma Delta", font_size := 20, font := "Arial",
     font_flags := 0, page := 1, bbox := (40, 150, 300, 170) },
   { text := fillerText3, font_size := 10, font := "Arial",
     font_flags := 0, page := 2, bbox := (40, 50, 500, 150) },
   { text := "Epsilon Theta", font_size := 14, font := "Arial",
     font_flags := 0, page := 2, bbox := (40, 150, 300, 170) },
   { text := fillerText4, font_size := 10, font := "Arial",
     font_flags := 0, page := 3, bbox := (40, 50, 500, 150) },
   { text := "Sigma Lambda", font_size := 14, font := "Arial",
     font_flags := 0, page := 3, bbox := (40, 150, 300, 170) }]

/-- A one-block document whose only font size is 5. -/
def c2Blocks : List TextBlock :=
  [{ text := "tiny print", font_size := 5, font := "Arial", font_flags := 0,
     page := 0, bbox := (0, 0, 50, 6) }]

/-- Three heading candidates with a duplicated text straddling two levels. -/
def c4Outline : List Heading :=
  [{ text := "Gamma", level := 1, page := 0, font_size := 10, font := "F",
     confidence := some (4/5), ybox := 0 },
   { text := "Gamma", level := 2, page := 1, font_size := 10, font := "F",
     confidence := some (4/5), ybox := 0 },
   { text := "Delta", level := 3, page := 2, font_size := 10, font := "F",
     confidence := some (4/5), ybox := 0 }]

def c7Span1 : Span :=
  { text := "A", font := "F", size := 12, flags := 0, bbox := (0, 0, 100, 10), page := 0 }

def c7Span2 : Span :=
  { text := "B", font := "F", size := 12, flags := 0, bbox := (1, 0, 5, 10), page := 0 }

def c10Blocks : List TextBlock :=
  [{ text := "page two text", font_size := 12, font := "Arial", font_flags := 0,
     page := 1, bbox := (0, 0, 100, 20) }]


/-- Extra concrete outlines for the C3/C4 witnesses. -/
def w3Outline : List Heading :=
  [{ text := "Alpha", level := 1, page := 0, font_size := 12, font := "F",
     confidence := some (4/5), ybox := 0 },
   { text := "Beta", level := 3, page := 1, font_size := 12, font := "F",
     confidence := some (4/5), ybox := 0 }]

def w4Outline : List Heading :=
  [{ text := "One", level := 1, page := 0, font_size := 12, font := "F",
     confidence := some (4/5), ybox := 0 },
   { text := "Two", level := 2, page := 1, font_size := 12, font := "F",
     confidence := some (4/5), ybox := 0 },
   { text := "Three", level := 3, page := 2, font_size := 12, font := "F",
     confidence := some (4/5), ybox := 0 }]

/-! ## Definitions following the words of the specification -/

/-- Modelled from the spec (§4.7): "bbox = union", i.e. componentwise
minimum of `x0`, `y0` and maximum of `x1`, `y1` over a span group.  Used
only to compare the specified bbox against the one the code computes. -/
def specBboxUnion : List Span → Bbox
  | [] => (0, 0, 0, 0)
  | s :: rest =>
    (listMin ((s :: rest).map (fun x => bx0 x.bbox)),
     listMin ((s :: rest).map (fun x => by0 x.bbox)),
     listMax ((s :: rest).map (fun x => bx1 x.bbox)),
     listMax ((s :: rest).map (fun x => by1 x.bbox)))

/-! ## General lemmas -/



theorem getD_sorted_le (l : List ℚ) (hs : l.Sorted (· ≤ ·)) (i j : ℕ)
    (hij : i ≤ j) (hj : j < l.length) : l.getD i 0 ≤ l.getD j 0 := by
  have hi : i < l.length := lt_of_le_of_lt hij hj
  rw [List.getD_eq_getElem l 0 hi, List.getD_eq_getElem l 0 hj]
  rcases lt_or_eq_of_le hij with h | h
  · exact List.pairwise_iff_getElem.mp hs i j hi hj h
  · subst h; rfl

theorem interpAt_mono_pos (l : List ℚ) (hs : l.Sorted (· ≤ ·)) (i : ℕ)
    (pos pos' : ℚ) (hpp : pos ≤ pos') (hi : i < l.length) :
    interpAt l i pos ≤ interpAt l i pos' := by
  unfold interpAt
  cases hget : l[i + 1]? with
  | none => exact le_refl _
  | some b =>
    have hbmem : i + 1 < l.length := by
      by_contra hcon
      rw [List.getElem?_eq_none (by omega)] at hget
      exact Option.noConfusion hget
    have hab : l.getD i 0 ≤ b := by
      have h2 : l[i+1]? = some l[i+1] := List.getElem?_eq_getElem hbmem
      rw [h2] at hget
      injection hget with hb
      rw [← hb, ← List.getD_eq_getElem l 0 hbmem]
      exact getD_sorted_le l hs i (i+1) (by omega) hbmem
    simp only []
    nlinarith

theorem interpAt_le_next (l : List ℚ) (hs : l.Sorted (· ≤ ·)) (i : ℕ)
    (pos : ℚ) (hub : pos ≤ (i : ℚ) + 1) (hmem : i + 1 < l.length) :
    interpAt l i pos ≤ l.getD (i + 1) 0 := by
  unfold interpAt
  have h2 : l[i+1]? = some l[i+1] := List.getElem?_eq_getElem hmem
  rw [h2]
  have hab : l.getD i 0 ≤ l[i+1] := by
    rw [← List.getD_eq_getElem l 0 hmem]
    exact getD_sorted_le l hs i (i+1) (by omega) hmem
  have hbd : l.getD (i+1) 0 = l[i+1] := List.getD_eq_getElem l 0 hmem
  rw [hbd]
  simp only []
  nlinarith

theorem getD_le_interpAt (l : List ℚ) (hs : l.Sorted (· ≤ ·)) (i : ℕ)
    (pos : ℚ) (hlb : (i : ℚ) ≤ pos) (hi : i < l.length) :
    l.getD i 0 ≤ interpAt l i pos := by
  unfold interpAt
  cases hget : l[i + 1]? with
  | none => exact le_refl _
  | some b =>
    have hbmem : i + 1 < l.length := by
      by_contra hcon
      rw [List.getElem?_eq_none (by omega)] at hget
      exact Option.noConfusion hget
    have hab : l.getD i 0 ≤ b := by
      have h2 : l[i+1]? = some l[i+1] := List.getElem?_eq_getElem hbmem
      rw [h2] at hget
      injection hget with hb
      rw [← hb, ← List.getD_eq_getElem l 0 hbmem]
      exact getD_sorted_le l hs i (i+1) (by omega) hbmem
    simp only []
    nlinarith

theorem interpSorted_mono (l : List ℚ) (hs : l.Sorted (· ≤ ·))
    (pos pos' : ℚ) (h0 : 0 ≤ pos) (hpp : pos ≤ pos')
    (hub : pos' ≤ (l.length : ℚ) - 1) :
    interpSorted l pos ≤ interpSorted l pos' := by
  have h0' : (0 : ℤ) ≤ ⌊pos⌋ := Int.le_floor.mpr (by exact_mod_cast h0)
  have h0'' : (0 : ℤ) ≤ ⌊pos'⌋ := le_trans h0' (Int.floor_le_floor hpp)
  have hicast : ((Int.toNat ⌊pos⌋ : ℤ)) = ⌊pos⌋ := Int.toNat_of_nonneg h0'
  have hi'cast : ((Int.toNat ⌊pos'⌋ : ℤ)) = ⌊pos'⌋ := Int.toNat_of_nonneg h0''
  have hii' : Int.toNat ⌊pos⌋ ≤ Int.toNat ⌊pos'⌋ := by
    have := Int.floor_le_floor hpp
    omega
  have hn1 : (1 : ℕ) ≤ l.length := by
    by_contra hcon
    have hl0 : l.length = 0 := by omega
    rw [hl0] at hub
    push_cast at hub
    have : (0:ℚ) ≤ pos' := le_trans h0 hpp
    linarith
  have hi'bound : Int.toNat ⌊pos'⌋ ≤ l.length - 1 := by
    have h1 : (⌊pos'⌋ : ℚ) ≤ (l.length : ℚ) - 1 := le_trans (Int.floor_le pos') hub
    have h2 : ⌊pos'⌋ ≤ (l.length : ℤ) - 1 := by exact_mod_cast h1
    omega
  have hi'lt : Int.toNat ⌊pos'⌋ < l.length := by omega
  have hilt : Int.toNat ⌊pos⌋ < l.length := by omega
  have hfl2 : pos < ((Int.toNat ⌊pos⌋ : ℚ)) + 1 := by
    have h := Int.lt_floor_add_one pos
    rw [← hicast] at h
    exact_mod_cast h
  have hfl' : ((Int.toNat ⌊pos'⌋ : ℚ)) ≤ pos' := by
    have h := Int.floor_le pos'
    rw [← hi'cast] at h
    exact_mod_cast h
  unfold interpSorted
  rcases Nat.eq_or_lt_of_le hii' with heq | hlt
  · rw [heq]
    exact interpAt_mono_pos l hs _ pos pos' hpp (heq ▸ hilt)
  · have hi1lt : Int.toNat ⌊pos⌋ + 1 < l.length := by omega
    refine le_trans (interpAt_le_next l hs _ pos (le_of_lt hfl2) hi1lt) ?_
    refine le_trans (getD_sorted_le l hs _ _ hlt hi'lt) ?_
    exact getD_le_interpAt l hs _ pos' hfl' hi'lt

theorem percentileQ_mono (l : List ℚ) (hs : l.Sorted (· ≤ ·)) (hne : l ≠ [])
    (p q : ℚ) (h0 : 0 ≤ p) (hpq : p ≤ q) (h100 : q ≤ 100) :
    percentileQ l p ≤ percentileQ l q := by
  have hn : 1 ≤ l.length := List.length_pos.mpr hne
  have hn1 : (0 : ℚ) ≤ (l.length : ℚ) - 1 := by
    have : (1 : ℚ) ≤ (l.length : ℚ) := by exact_mod_cast hn
    linarith
  unfold percentileQ
  apply interpSorted_mono l hs
  · exact mul_nonneg (by positivity) hn1
  · exact mul_le_mul_of_nonneg_right (by linarith) hn1
  · have hq1 : q / 100 ≤ 1 := by linarith
    nlinarith

theorem medianQ_nonneg (l : List ℚ) (hpos : ∀ x ∈ l, 0 < x) (hne : l ≠ []) :
    0 ≤ medianQ l := by
  have hperm := List.perm_insertionSort (· ≤ ·) l
  have hlen : (ratSort l).length = l.length := List.length_insertionSort _ l
  have hmem : ∀ x ∈ ratSort l, 0 < x := fun x hx => hpos x (hperm.mem_iff.mp hx)
  have hn : 1 ≤ l.length := List.length_pos.mpr hne
  have hget : ∀ j, j < (ratSort l).length → 0 < (ratSort l).getD j 0 := by
    intro j hj
    rw [List.getD_eq_getElem _ 0 hj]
    exact hmem _ (List.getElem_mem hj)
  unfold medianQ
  by_cases hodd : (ratSort l).length % 2 = 1
  · simp only [hodd, if_true]
    exact le_of_lt (hget _ (by omega))
  · simp only [hodd, if_false]
    have h1 : 0 < (ratSort l).getD ((ratSort l).length / 2 - 1) 0 := hget _ (by omega)
    have h2 : 0 < (ratSort l).getD ((ratSort l).length / 2) 0 := hget _ (by omega)
    linarith

theorem analyze_h2_le_h1 (blocks : List TextBlock) :
    (analyze_font_statistics blocks).h2 ≤ (analyze_font_statistics blocks).h1 := by
  unfold analyze_font_statistics
  set fs := (blocks.map (·.font_size)).filter (fun x => 0 < x) with hfs
  by_cases he : fs.isEmpty
  · simp only [he, if_true]
    norm_num
  · have heq : fs.isEmpty = false := by
      cases hif : fs.isEmpty
      · rfl
      · exact absurd hif he
    simp only [heq, Bool.false_eq_true, if_false]
    have hne : fs ≠ [] := by
      intro hcon
      rw [hcon] at heq
      simp at heq
    have hpos : ∀ x ∈ fs, 0 < x := by
      intro x hx
      have h := List.of_mem_filter hx
      simpa using h
    have hmed : 0 ≤ medianQ fs := medianQ_nonneg fs hpos hne
    have hsorted : (ratSort fs).Sorted (· ≤ ·) := List.sorted_insertionSort _ fs
    have hsne : ratSort fs ≠ [] := by
      intro hcon
      apply hne
      have hl : (ratSort fs).length = fs.length := List.length_insertionSort _ fs
      rw [hcon] at hl
      exact List.length_eq_zero.mp hl.symm
    have hp : ∀ p q, 0 ≤ p → p ≤ q → q ≤ 100 →
        percentileQ (ratSort fs) p ≤ percentileQ (ratSort fs) q :=
      fun p q a b c => percentileQ_mono _ hsorted hsne p q a b c
    by_cases hv : 3 < fs.dedup.length
    · simp only [hv, if_true]
      by_cases hA : (((fs.filter (fun x => 0 < x)).map pyRound).dedup.length ≤ 3 ∧
          listMax fs - listMin fs < 6)
      · simp only [hA, if_true]
        exact max_le_max (hp 50 75 (by norm_num) (by norm_num) (by norm_num))
          (by nlinarith [hmed])
      · simp only [hA, if_false]
        by_cases hB : (5 ≤ (((fs.filter (fun x => 0 < x)).map pyRound).dedup.length) ∧
            10 < listMax fs - listMin fs)
        · simp only [hB, if_true]
          exact max_le_max (hp 90 95 (by norm_num) (by norm_num) (by norm_num))
            (by nlinarith [hmed])
        · simp only [hB, if_false]
          exact max_le_max (hp 75 90 (by norm_num) (by norm_num) (by norm_num))
            (by nlinarith [hmed])
    · simp only [hv, if_false]
      nlinarith [hmed]



/-! ## Post-processing lemmas -/

/-- The level-monotonicity step relation of the hierarchy validator. -/
def hStep (a b : Heading) : Prop := b.level ≤ a.level + 1

instance : DecidableRel hStep := fun a b => by unfold hStep; infer_instance

theorem validateAux_cons (last : ℕ) (h : Heading) (t : List Heading) :
    validateAux last (h :: t) =
      if last + 1 < h.level ∧ 0 < last then
        { h with level := min h.level (last + 1) } ::
          validateAux (min h.level (last + 1)) t
      else h :: validateAux h.level t := rfl

theorem validateAux_map {α : Type} (f : Heading → α)
    (hf : ∀ (h : Heading) (n : ℕ), f { h with level := n } = f h) :
    ∀ (last : ℕ) (l : List Heading), (validateAux last l).map f = l.map f := by
  intro last l
  induction l generalizing last with
  | nil => rfl
  | cons h t ih =>
    rw [validateAux_cons]
    by_cases hc : last + 1 < h.level ∧ 0 < last
    · rw [if_pos hc]
      simp only [List.map_cons, hf, ih]
    · rw [if_neg hc]
      simp only [List.map_cons, ih]

theorem validateAux_length (last : ℕ) (l : List Heading) :
    (validateAux last l).length = l.length := by
  have h := validateAux_map (fun _ => Unit.unit) (fun _ _ => rfl) last l
  calc (validateAux last l).length
      = ((validateAux last l).map (fun _ => Unit.unit)).length :=
        (List.length_map _ _).symm
    _ = (l.map (fun _ => Unit.unit)).length := by rw [h]
    _ = l.length := List.length_map _ _

theorem validateAux_idem (l : List Heading) :
    ∀ last, validateAux last (validateAux last l) = validateAux last l := by
  induction l with
  | nil => intro last; rfl
  | cons h t ih =>
    intro last
    rw [validateAux_cons]
    by_cases hc : last + 1 < h.level ∧ 0 < last
    · rw [if_pos hc]
      have hmin : min h.level (last + 1) = last + 1 := by omega
      rw [validateAux_cons]
      have hc2 : ¬(last + 1 <
          ({ h with level := min h.level (last + 1) } : Heading).level ∧ 0 < last) := by
        simp only [hmin]
        omega
      rw [if_neg hc2]
      simp only [hmin, ih]
    · rw [if_neg hc, validateAux_cons, if_neg hc, ih]

theorem validateAux_chain (l : List Heading) : ∀ (last : ℕ), 1 ≤ last →
    (∀ h ∈ l, 1 ≤ h.level) →
    List.Chain' hStep (validateAux last l) ∧
      (∀ x ∈ (validateAux last l).head?, x.level ≤ last + 1 ∧ 1 ≤ x.level) := by
  induction l with
  | nil =>
    intro last _ _
    exact ⟨List.chain'_nil, by intro x hx; simp [validateAux] at hx⟩
  | cons h t ih =>
    intro last hlast hlvl
    have hh : 1 ≤ h.level := hlvl h (List.mem_cons_self h t)
    have ht : ∀ x ∈ t, 1 ≤ x.level := fun x hx => hlvl x (List.mem_cons_of_mem h hx)
    by_cases hc : last + 1 < h.level ∧ 0 < last
    · have hmin : min h.level (last + 1) = last + 1 := by omega
      have hrec := ih (min h.level (last + 1)) (by omega) ht
      constructor
      · rw [validateAux_cons, if_pos hc]
        apply List.chain'_cons'.mpr
        refine ⟨?_, hrec.1⟩
        intro y hy
        have hb := hrec.2 y hy
        unfold hStep
        simp only [hmin] at hb ⊢
        omega
      · intro x hx
        rw [validateAux_cons, if_pos hc] at hx
        simp only [List.head?_cons, Option.mem_def, Option.some.injEq] at hx
        subst hx
        simp only [hmin]
        omega
    · have hcur : h.level ≤ last + 1 := by
        rcases Nat.lt_or_ge (last + 1) h.level with hgt | hle
        · exact absurd ⟨hgt, by omega⟩ hc
        · exact hle
      have hrec := ih h.level hh ht
      constructor
      · rw [validateAux_cons, if_neg hc]
        apply List.chain'_cons'.mpr
        refine ⟨?_, hrec.1⟩
        intro y hy
        have hb := hrec.2 y hy
        unfold hStep
        omega
      · intro x hx
        rw [validateAux_cons, if_neg hc] at hx
        simp only [List.head?_cons, Option.mem_def, Option.some.injEq] at hx
        subst hx
        omega

theorem validate_hierarchy_idem (l : List Heading) :
    validate_hierarchy (validate_hierarchy l) = validate_hierarchy l := by
  unfold validate_hierarchy
  by_cases hl : l.length ≤ 1
  · simp only [if_pos hl]
  · simp only [if_neg hl, validateAux_length, validateAux_idem]

theorem validate_hierarchy_chain (l : List Heading)
    (hlvl : ∀ h ∈ l, 1 ≤ h.level) :
    List.Chain' hStep (validate_hierarchy l) := by
  unfold validate_hierarchy
  by_cases hl : l.length ≤ 1
  · rw [if_pos hl]
    match l with
    | [] => exact List.chain'_nil
    | [x] => exact List.chain'_singleton x
    | x :: y :: t => simp at hl
  · rw [if_neg hl]
    match l with
    | [] => exact List.chain'_nil
    | h :: t =>
      have hh : 1 ≤ h.level := hlvl h (List.mem_cons_self h t)
      have ht : ∀ x ∈ t, 1 ≤ x.level := fun x hx => hlvl x (List.mem_cons_of_mem h hx)
      have hc : ¬(0 + 1 < h.level ∧ 0 < 0) := by omega
      rw [validateAux_cons, if_neg hc]
      have hrec := validateAux_chain t h.level hh ht
      apply List.chain'_cons'.mpr
      refine ⟨?_, hrec.1⟩
      intro y hy
      have hb := hrec.2 y hy
      unfold hStep
      omega

theorem addToGroups_not_mem (gs : List (String × List Heading)) (k : String)
    (h : Heading) (hk : ∀ g ∈ gs, g.1 ≠ k) :
    addToGroups gs k h = gs ++ [(k, [h])] := by
  induction gs with
  | nil => rfl
  | cons g rest ih =>
    unfold addToGroups
    have hne : (g.1 == k) = false :=
      beq_eq_false_iff_ne.mpr (hk g (List.mem_cons_self g rest))
    rw [hne]
    simp only [Bool.false_eq_true, if_false, List.cons_append]
    rw [ih (fun g' hg' => hk g' (List.mem_cons_of_mem g hg'))]

theorem gatherGroups_aux (l : List Heading) :
    ∀ gs : List (String × List Heading),
    (∀ g ∈ gs, g.1 ∉ l.map lowerText) → (l.map lowerText).Nodup →
    l.foldl (fun gs h => addToGroups gs (lowerText h) h) gs
      = gs ++ l.map (fun h => (lowerText h, [h])) := by
  induction l with
  | nil => intro gs _ _; simp
  | cons h t ih =>
    intro gs hgs hnd
    have hstep : addToGroups gs (lowerText h) h = gs ++ [(lowerText h, [h])] := by
      apply addToGroups_not_mem
      intro g hg hcon
      exact hgs g hg (hcon ▸ List.mem_cons_self (lowerText h) (t.map lowerText))
    rw [List.foldl_cons, hstep]
    have hnd' : (t.map lowerText).Nodup := (List.nodup_cons.mp hnd).2
    have hhd : lowerText h ∉ t.map lowerText := (List.nodup_cons.mp hnd).1
    rw [ih (gs ++ [(lowerText h, [h])]) ?_ hnd']
    · simp
    · intro g hg
      rcases List.mem_append.mp hg with hg' | hg'
      · intro hcon
        exact hgs g hg' (List.mem_cons_of_mem _ hcon)
      · simp only [List.mem_singleton] at hg'
        subst hg'
        exact hhd

theorem gatherGroups_nodup (l : List Heading)
    (hnd : (l.map lowerText).Nodup) :
    gatherGroups l = l.map (fun h => (lowerText h, [h])) := by
  unfold gatherGroups
  have := gatherGroups_aux l [] (by intro g hg; simp at hg) hnd
  simpa using this

theorem remove_duplicates_of_nodup (l : List Heading)
    (hnd : (l.map lowerText).Nodup) (hs : l.Sorted headingKeyLe) :
    remove_duplicates l = l := by
  unfold remove_duplicates
  by_cases he : l.isEmpty
  · rw [if_pos he]
  · rw [if_neg he, gatherGroups_nodup l hnd, List.map_map]
    have hid : ((fun g : String × List Heading => pickBest g.2) ∘
        (fun h => (lowerText h, [h]))) = fun h => h := by
      funext h
      rfl
    rw [hid]
    have hmapid : l.map (fun h => h) = l := List.map_id' l
    rw [hmapid]
    exact hs.insertionSort_eq

theorem validate_hierarchy_map {α : Type} (f : Heading → α)
    (hf : ∀ (h : Heading) (n : ℕ), f { h with level := n } = f h)
    (l : List Heading) : (validate_hierarchy l).map f = l.map f := by
  unfold validate_hierarchy
  by_cases hl : l.length ≤ 1
  · rw [if_pos hl]
  · rw [if_neg hl, validateAux_map f hf]

theorem sorted_validate_hierarchy (l : List Heading)
    (hs : l.Sorted headingKeyLe) :
    (validate_hierarchy l).Sorted headingKeyLe := by
  unfold validate_hierarchy
  by_cases hl : l.length ≤ 1
  · rw [if_pos hl]; exact hs
  · rw [if_neg hl]
    have hmk : (validateAux 0 l).map hkey = l.map hkey :=
      validateAux_map hkey (fun h n => rfl) 0 l
    have hs' : l.Pairwise (fun a b => keyPairLe (hkey a) (hkey b)) := hs
    have hpair : ((validateAux 0 l).map hkey).Pairwise keyPairLe := by
      rw [hmk]
      exact List.pairwise_map.mpr hs'
    have hres : (validateAux 0 l).Pairwise
        (fun a b => keyPairLe (hkey a) (hkey b)) := List.pairwise_map.mp hpair
    exact hres

theorem titleFiltered_sublist (outline : List Heading) (title : String) :
    (titleFiltered outline title).Sublist outline := by
  unfold titleFiltered
  by_cases hb : !(strIsEmpty (pyStrip title))
  · rw [if_pos hb]; exact List.filter_sublist outline
  · rw [if_neg hb]

theorem post_process_eq (outline : List Heading) (title : String)
    (fs : FontStats) (hnd : (outline.map lowerText).Nodup) :
    post_process_headings outline title fs
      = validate_hierarchy
          ((titleFiltered outline title).insertionSort headingKeyLe) := by
  have hFsub := titleFiltered_sublist outline title
  have hFnd : ((titleFiltered outline title).map lowerText).Nodup :=
    List.Nodup.sublist (hFsub.map lowerText) hnd
  have hperm := List.perm_insertionSort headingKeyLe (titleFiltered outline title)
  have hSnd : (((titleFiltered outline title).insertionSort headingKeyLe).map
      lowerText).Nodup := by
    refine (List.Perm.nodup_iff ?_).mpr hFnd
    exact hperm.map lowerText
  have hSsorted := List.sorted_insertionSort headingKeyLe (titleFiltered outline title)
  have hVnd : ((validate_hierarchy ((titleFiltered outline title).insertionSort
      headingKeyLe)).map lowerText).Nodup := by
    rw [validate_hierarchy_map lowerText (fun h n => rfl)]
    exact hSnd
  have hVsorted := sorted_validate_hierarchy _ hSsorted
  unfold post_process_headings
  by_cases he : outline.isEmpty
  · rw [if_pos he]
    have hnil : outline = [] := by
      cases outline with
      | nil => rfl
      | cons a t => simp [List.isEmpty] at he
    subst hnil
    unfold titleFiltered
    by_cases hb : (!(strIsEmpty (pyStrip title))) = true
    · rw [if_pos hb]
      rfl
    · rw [if_neg hb]
      rfl
  · rw [if_neg he]
    exact remove_duplicates_of_nodup _ hVnd hVsorted


theorem titleFiltered_eq_self (l : List Heading) (title : String)
    (h : (!(strIsEmpty (pyStrip title))) = true →
      ∀ x ∈ l, titleKeep (strLower (pyStrip title)) x = true) :
    titleFiltered l title = l := by
  unfold titleFiltered
  by_cases hb : (!(strIsEmpty (pyStrip title))) = true
  · rw [if_pos hb]
    exact List.filter_eq_self.mpr (h hb)
  · rw [if_neg hb]

/-! ## Claim theorems -/

set_option maxRecDepth 10000 in
/-- Claim C1 (counterexample): the three-block document `c1Blocks` has the
extracted title "Application Form" (containing "application") and a corpus
mentioning four of the form-field words, yet the Document Profiler
classifies it as `simple` with strategy `span_preferred` (not `form` /
`minimal`), and the final outline of `extract_outline` is not empty. -/
theorem C1_counterexample :
    containsSub "application"
      (strLower (extract_title defaultConfig c1Blocks (analyze_font_statistics c1Blocks))) = true ∧
    4 ≤ formFieldCount c1Blocks ∧
    (analyze_document_type c1Blocks
      (extract_title defaultConfig c1Blocks (analyze_font_statistics c1Blocks))).dtype = "simple" ∧
    (analyze_document_type c1Blocks
      (extract_title defaultConfig c1Blocks (analyze_font_statistics c1Blocks))).recommended_strategy
      = "span_preferred" ∧
    (extract_outline_core defaultConfig c1Blocks [] 600).outline ≠ [] := by
  with_unfolding_all decide

/-- Claim C1 (amended): when the extracted title contains "application" and
the corpus mentions at least 4 of the form-field words, `is_form_document`
holds; the profiler reports type `form` with strategy `minimal` only when
the document is not already classified `simple` or `complex` by the earlier
checks; and — regardless of the profile — `extract_outline` then returns
the post-processed block-level outline (the field labels), not the empty
list. -/
theorem C1_amended (cfg : Config) (blocks : List TextBlock) (rawSpans : List Span)
    (page_width : ℚ)
    (hT : containsSub "application"
      (strLower (extract_title cfg blocks (analyze_font_statistics blocks))) = true)
    (hF : 4 ≤ formFieldCount blocks) :
    is_form_document blocks (extract_title cfg blocks (analyze_font_statistics blocks)) = true
    ∧ (¬((blocks.map (fun b => b.text.length)).sum < 400 ∧ blocks.length < 6) →
       ¬(15000 < (blocks.map (fun b => b.text.length)).sum ∨ 100 < blocks.length) →
       (analyze_document_type blocks
         (extract_title cfg blocks (analyze_font_statistics blocks))).dtype = "form"
       ∧ (analyze_document_type blocks
         (extract_title cfg blocks (analyze_font_statistics blocks))).recommended_strategy
           = "minimal")
    ∧ (extract_outline_core cfg blocks rawSpans page_width).outline
        = build_flat_outline (post_process_headings
            (multi_pass_heading_detection cfg blocks (analyze_font_statistics blocks) page_width)
            (extract_title cfg blocks (analyze_font_statistics blocks))
            (analyze_font_statistics blocks)) := by
  have hform : is_form_document blocks
      (extract_title cfg blocks (analyze_font_statistics blocks)) = true := by
    unfold is_form_document
    have hany : containsAnySub form_keywords
        (strLower (extract_title cfg blocks (analyze_font_statistics blocks))) = true := by
      unfold containsAnySub
      apply List.any_eq_true.mpr
      exact ⟨"application", by simp [form_keywords], hT⟩
    rw [if_pos hany]
    rw [decide_eq_true hF]
    rfl
  refine ⟨hform, ?_, ?_⟩
  · intro hns hnc
    simp only [analyze_document_type]
    rw [if_neg hns, if_neg hnc, if_pos hform]
    exact ⟨rfl, rfl⟩
  · simp only [extract_outline_core]
    rw [if_pos hform]

set_option maxRecDepth 10000 in
/-- Claim C1 (witness): the amended claim instantiated at `c1Blocks`. -/
theorem C1_witness :
    is_form_document c1Blocks
      (extract_title defaultConfig c1Blocks (analyze_font_statistics c1Blocks)) = true ∧
    (extract_outline_core defaultConfig c1Blocks [] 600).outline
      = build_flat_outline (post_process_headings
          (multi_pass_heading_detection defaultConfig c1Blocks
            (analyze_font_statistics c1Blocks) 600)
          (extract_title defaultConfig c1Blocks (analyze_font_statistics c1Blocks))
          (analyze_font_statistics c1Blocks)) :=
  ⟨(C1_amended defaultConfig c1Blocks [] 600 (by with_unfolding_all decide)
      (by with_unfolding_all decide)).1,
   (C1_amended defaultConfig c1Blocks [] 600 (by with_unfolding_all decide)
      (by with_unfolding_all decide)).2.2⟩

/-- Claim C2 (counterexample): the claimed ordering `h1 ≥ h2 ≥ h3` fails on
the one-block document with font size 5: the computed thresholds are
`h1 = 7.5`, `h2 = 6.5`, `h3 = 7.5`, so `h2 ≥ h3` is false. -/
theorem C2_counterexample :
    (analyze_font_statistics c2Blocks).h1 = 15/2 ∧
    (analyze_font_statistics c2Blocks).h2 = 13/2 ∧
    (analyze_font_statistics c2Blocks).h3 = 15/2 ∧
    ¬((analyze_font_statistics c2Blocks).h3 ≤ (analyze_font_statistics c2Blocks).h2) := by
  with_unfolding_all decide

/-- Claim C2 (amended): for every list of text blocks, the FontStatistics
computed by `analyze_font_statistics` satisfies `h1 ≥ h2`; the `h2 ≥ h3`
part of the original claim is refuted by `C2_counterexample` (the
Confidence-Scorer h3 floor `max(mean·0.8, 7.5)` can exceed h2 on small-font
documents). -/
theorem C2_amended (blocks : List TextBlock) :
    (analyze_font_statistics blocks).h2 ≤ (analyze_font_statistics blocks).h1 :=
  analyze_h2_le_h1 blocks

set_option maxRecDepth 10000 in
/-- Claim C3 (counterexample): the pipeline output on the nine-block
document `c3Blocks` is `[H1 "Gamma Delta", H3 "Epsilon Theta",
H3 "Sigma Lambda"]` — deduplication removed the only H2 — so consecutive
entries deepen by two levels and the claimed level-monotonicity fails. -/
theorem C3_counterexample :
    (extract_outline_core defaultConfig c3Blocks [] 600).outline
      = [{ level := 1, text := "Gamma Delta", page := 0 },
         { level := 3, text := "Epsilon Theta", page := 2 },
         { level := 3, text := "Sigma Lambda", page := 3 }] ∧
    ¬ List.Chain' (fun a b : OutlineEntry => b.level ≤ a.level + 1)
        (extract_outline_core defaultConfig c3Blocks [] 600).outline := by
  have heq : (extract_outline_core defaultConfig c3Blocks [] 600).outline
      = [{ level := 1, text := "Gamma Delta", page := 0 },
         { level := 3, text := "Epsilon Theta", page := 2 },
         { level := 3, text := "Sigma Lambda", page := 3 }] := by
    with_unfolding_all decide
  refine ⟨heq, ?_⟩
  rw [heq]
  intro hc
  exact absurd (List.chain'_cons.mp hc).1 (by decide)

/-- Claim C3 (amended): the post-processed outline satisfies
`level(next) ≤ level(prev) + 1` for consecutive entries whenever the
candidate levels are the genuine H1–H3 levels (numeric part at least 1) and
no two candidates share the same case-insensitive text; deduplication can
otherwise delete an intermediate level, as `C3_counterexample` shows the
full pipeline doing. -/
theorem C3_amended (outline : List Heading) (title : String) (fs : FontStats)
    (hlvl : ∀ h ∈ outline, 1 ≤ h.level)
    (hnodup : (outline.map lowerText).Nodup) :
    List.Chain' hStep (post_process_headings outline title fs) := by
  rw [post_process_eq outline title fs hnodup]
  apply validate_hierarchy_chain
  intro h hh
  have h1 : h ∈ titleFiltered outline title :=
    (List.perm_insertionSort headingKeyLe (titleFiltered outline title)).mem_iff.mp hh
  exact hlvl h ((titleFiltered_sublist outline title).subset h1)

set_option maxRecDepth 10000 in
/-- Claim C3 (witness): the amended claim instantiated at `w3Outline`. -/
theorem C3_witness :
    (∀ h ∈ w3Outline, 1 ≤ h.level) ∧ (w3Outline.map lowerText).Nodup ∧
    List.Chain' hStep
      (post_process_headings w3Outline "Notes" (analyze_font_statistics [])) :=
  ⟨by with_unfolding_all decide, by with_unfolding_all decide,
   C3_amended w3Outline "Notes" (analyze_font_statistics [])
     (by with_unfolding_all decide) (by with_unfolding_all decide)⟩

set_option maxRecDepth 10000 in
/-- Claim C4 (counterexample): post-processing is not idempotent: on
`c4Outline` (the text "Gamma" at H1 page 0 and H2 page 1, then "Delta" at
H3), the first pass deduplicates away the H2 entry and the second pass then
clamps the H3 down to H2, changing the output. -/
theorem C4_counterexample :
    post_process_headings
        (post_process_headings c4Outline "" (analyze_font_statistics []))
        "" (analyze_font_statistics [])
      ≠ post_process_headings c4Outline "" (analyze_font_statistics []) := by
  with_unfolding_all decide

/-- Claim C4 (amended): `_post_process_headings` is idempotent on every
outline whose entries have pairwise-distinct case-insensitive texts (and
any title); with duplicated texts the deduplication step can remove an
intermediate level and re-validation then changes the result, as
`C4_counterexample` shows. -/
theorem C4_amended (outline : List Heading) (title : String) (fs : FontStats)
    (hnodup : (outline.map lowerText).Nodup) :
    post_process_headings (post_process_headings outline title fs) title fs
      = post_process_headings outline title fs := by
  have hP := post_process_eq outline title fs hnodup
  have hSsorted := List.sorted_insertionSort headingKeyLe (titleFiltered outline title)
  have hFsub := titleFiltered_sublist outline title
  have hFnd : ((titleFiltered outline title).map lowerText).Nodup :=
    List.Nodup.sublist (hFsub.map lowerText) hnodup
  have hperm := List.perm_insertionSort headingKeyLe (titleFiltered outline title)
  have hSnd : (((titleFiltered outline title).insertionSort headingKeyLe).map
      lowerText).Nodup :=
    (List.Perm.nodup_iff (hperm.map lowerText)).mpr hFnd
  have hVnd : ((validate_hierarchy ((titleFiltered outline title).insertionSort
      headingKeyLe)).map lowerText).Nodup := by
    rw [validate_hierarchy_map lowerText (fun h n => rfl)]
    exact hSnd
  have hVsorted := sorted_validate_hierarchy _ hSsorted
  have hP2 := post_process_eq
    (validate_hierarchy ((titleFiltered outline title).insertionSort headingKeyLe))
    title fs hVnd
  rw [hP, hP2]
  have hTF : titleFiltered
      (validate_hierarchy ((titleFiltered outline title).insertionSort headingKeyLe))
      title
      = validate_hierarchy ((titleFiltered outline title).insertionSort headingKeyLe) := by
    apply titleFiltered_eq_self
    intro hb x hx
    have htext : (validate_hierarchy ((titleFiltered outline title).insertionSort
        headingKeyLe)).map Heading.text
        = ((titleFiltered outline title).insertionSort headingKeyLe).map Heading.text :=
      validate_hierarchy_map Heading.text (fun h n => rfl) _
    have hx1 : x.text ∈ (validate_hierarchy ((titleFiltered outline title).insertionSort
        headingKeyLe)).map Heading.text := List.mem_map_of_mem Heading.text hx
    rw [htext] at hx1
    have hx2 : x.text ∈ (titleFiltered outline title).map Heading.text :=
      ((hperm.map Heading.text).mem_iff).mp hx1
    obtain ⟨y, hy, hyx⟩ := List.mem_map.mp hx2
    have hy' : y ∈ outline.filter (titleKeep (strLower (pyStrip title))) := by
      unfold titleFiltered at hy
      rwa [if_pos hb] at hy
    have hkeep : titleKeep (strLower (pyStrip title)) y = true := List.of_mem_filter hy'
    unfold titleKeep at hkeep ⊢
    rw [← hyx]
    exact hkeep
  rw [hTF, hVsorted.insertionSort_eq]
  exact validate_hierarchy_idem _

set_option maxRecDepth 10000 in
/-- Claim C4 (witness): the amended claim instantiated at `w4Outline`. -/
theorem C4_witness :
    (w4Outline.map lowerText).Nodup ∧
    post_process_headings
        (post_process_headings w4Outline "Report" (analyze_font_statistics []))
        "Report" (analyze_font_statistics [])
      = post_process_headings w4Outline "Report" (analyze_font_statistics []) :=
  ⟨by with_unfolding_all decide,
   C4_amended w4Outline "Report" (analyze_font_statistics [])
     (by with_unfolding_all decide)⟩

/-- Claim C5: whenever the size ratio `font_size / median` (computed as the
source does, with fallback 1 for a nonpositive median) exceeds 1.8 and the
text is not bold — bold bit unset and no bold pattern inside the lowercased
font name — `calculate_heading_confidence` returns exactly the size-tier
confidence multiplied by 0.3 and clamped to at least 0, with forced level
H3, applying none of the remaining scoring rules (vocabulary, numbering,
position, length, case, colon, context). -/
theorem C5_large_nonbold_shortcircuit
    (text : String) (font_size : ℚ) (font : String) (bbox : Bbox)
    (font_stats : FontStats) (font_flags : ℕ)
    (context_blocks : Option (List TextBlock))
    (structural_words : Option (List String))
    (hratio : 9/5 < (if 0 < font_stats.median then font_size / font_stats.median else 1))
    (hbold : scorerIsBold font font_flags = false) :
    calculate_heading_confidence text font_size font bbox font_stats font_flags
      context_blocks structural_words
      = (max 0 ((size_tier font_size font_stats).1 * (3/10)), 3) := by
  simp only [calculate_heading_confidence]
  rw [if_pos ⟨hratio, hbold⟩]

/-- Claim C5 (witness): at font size 30 against the empty-document fallback
statistics (median 12, thresholds 16/14/12) with a non-bold font, the
scorer returns `(0.4 · 0.3, H3) = (3/25, H3)`. -/
theorem C5_witness :
    ((9:ℚ)/5 < (if 0 < (analyze_font_statistics []).median
      then (30:ℚ) / (analyze_font_statistics []).median else 1)) ∧
    scorerIsBold "Arial" 0 = false ∧
    calculate_heading_confidence "Hello" 30 "Arial" (0, 0, 10, 10)
        (analyze_font_statistics []) 0 none none
      = (max 0 ((size_tier 30 (analyze_font_statistics [])).1 * (3/10)), 3) ∧
    calculate_heading_confidence "Hello" 30 "Arial" (0, 0, 10, 10)
        (analyze_font_statistics []) 0 none none = (3/25, 3) :=
  ⟨by with_unfolding_all decide, by with_unfolding_all decide,
   C5_large_nonbold_shortcircuit "Hello" 30 "Arial" (0, 0, 10, 10)
     (analyze_font_statistics []) 0 none none
     (by with_unfolding_all decide) (by with_unfolding_all decide),
   by with_unfolding_all decide⟩

/-- Claim C6: for every font size, font statistics and noise-pattern list,
the Noise Classifier classifies the text "www.example.com" as noise. -/
theorem C6_url_always_noise (font_size : ℚ) (font_stats : FontStats)
    (noise_patterns : Option (List String)) :
    is_noise_with_confidence "www.example.com" font_size font_stats
      noise_patterns = true := by
  rcases noise_patterns with _ | l
  · with_unfolding_all rfl
  · unfold is_noise_with_confidence
    by_cases hm : l.contains (pyStrip "www.example.com") = true
    · simp only [hm, if_true]
    · simp only [hm, Bool.false_eq_true, if_false]
      with_unfolding_all rfl

/-- Claim C7 (counterexample): consolidating the two overlapping spans
`c7Span1` (bbox (0,0,100,10)) and `c7Span2` (bbox (1,0,5,10)) produces one
merged span whose bbox is `(0,0,5,10)` — the right edge of the *last* span
— while the union of the member bboxes is `(0,0,100,10)`, so the claimed
"bbox = union" is false (the size-average part does hold). -/
theorem C7_counterexample :
    consolidate_adjacent_spans [c7Span1, c7Span2]
      = [{ text := "A B", font := "F", size := 12, flags := 0,
           bbox := (0, 0, 5, 10), page := 0 }] ∧
    specBboxUnion [c7Span1, c7Span2] = (0, 0, 100, 10) ∧
    ((0, 0, 5, 10) : Bbox) ≠ specBboxUnion [c7Span1, c7Span2] := by
  with_unfolding_all decide

/-- Claim C7 (amended): for every group of two or more spans merged by
`consolidate_adjacent_spans`, the consolidated span's size is the
arithmetic mean of the member sizes, but its bbox is
`(first.x0, first.y0, last.x1, first.y1)` — left and top and bottom edges
from the first member, right edge from the last — not the componentwise
union of the member boxes. -/
theorem C7_amended (spans : List Span) (g : List Span) (s0 s1 : Span)
    (gt : List Span)
    (hg : g ∈ consolidateGroups (spans.insertionSort spanLe))
    (hcons : g = s0 :: s1 :: gt) :
    (emitGroup g).size = (g.map Span.size).sum / (g.length : ℚ)
    ∧ (emitGroup g).bbox
        = (bx0 s0.bbox, by0 s0.bbox, bx1 ((s1 :: gt).getLastD s0).bbox, by1 s0.bbox)
    ∧ emitGroup g ∈ consolidate_adjacent_spans spans := by
  subst hcons
  refine ⟨rfl, rfl, ?_⟩
  unfold consolidate_adjacent_spans
  have hne : spans.isEmpty = false := by
    cases hsp : spans.isEmpty
    · rfl
    · have hnil : spans = [] := by
        cases spans with
        | nil => rfl
        | cons a t => simp [List.isEmpty] at hsp
      subst hnil
      simp [consolidateGroups, List.insertionSort] at hg
  simp only [hne, Bool.false_eq_true, if_false]
  exact List.mem_map_of_mem emitGroup hg

/-- Claim C7 (witness): the amended claim instantiated on the two-span
example, whose sorted spans form a single merged group. -/
theorem C7_witness :
    ([c7Span1, c7Span2] ∈ consolidateGroups
      ([c7Span1, c7Span2].insertionSort spanLe)) ∧
    (emitGroup [c7Span1, c7Span2]).size
      = (([c7Span1, c7Span2].map Span.size).sum) / (([c7Span1, c7Span2] : List Span).length : ℚ) ∧
    emitGroup [c7Span1, c7Span2] ∈ consolidate_adjacent_spans [c7Span1, c7Span2] :=
  ⟨by with_unfolding_all decide,
   (C7_amended [c7Span1, c7Span2] [c7Span1, c7Span2] c7Span1 c7Span2 []
     (by with_unfolding_all decide) rfl).1,
   (C7_amended [c7Span1, c7Span2] [c7Span1, c7Span2] c7Span1 c7Span2 []
     (by with_unfolding_all decide) rfl).2.2⟩

/-- Claim C8: `process_single_pdf` always returns a result record — every
outcome is either a success-shaped record or the structured error record
with status "error", empty title and empty outline; when extraction fails
(and the cache missed) the result is exactly that structured error; and in
batch processing each document's result is a function of its own inputs
alone, so one document's failure never affects the others. -/
theorem C8_error_isolation :
    (∀ (fn : String) (c : Option DocResult) (ex : Except String DocResult),
      (process_single_pdf fn c ex).status = "success" ∨
      ((process_single_pdf fn c ex).status = "error" ∧
       (process_single_pdf fn c ex).title = "" ∧
       (process_single_pdf fn c ex).outline = [])) ∧
    (∀ (fn : String) (e : String),
      process_single_pdf fn none (.error e)
        = { filename := fn, status := "error", cached := none,
            error := some e, title := "", outline := [] }) ∧
    (∀ (docs : List (String × Option DocResult × Except String DocResult)) (i : ℕ),
      (processBatch docs)[i]?
        = docs[i]?.map (fun d => process_single_pdf d.1 d.2.1 d.2.2)) := by
  refine ⟨?_, ?_, ?_⟩
  · intro fn c ex
    rcases c with _ | r
    · rcases ex with e | r
      · exact Or.inr ⟨rfl, rfl, rfl⟩
      · exact Or.inl rfl
    · exact Or.inl rfl
  · intro fn e
    rfl
  · intro docs i
    unfold processBatch
    exact List.getElem?_map _ _ _

/-- Claim C9: the Noise Classifier verdict is independent of the
`font_size` and `font_stats` arguments — exactly as in the source, which
never reads them — so the decision depends only on the text and the noise
patterns. -/
theorem C9_noise_ignores_font (text : String) (fs1 fs2 : ℚ)
    (st1 st2 : FontStats) (noise_patterns : Option (List String)) :
    is_noise_with_confidence text fs1 st1 noise_patterns
      = is_noise_with_confidence text fs2 st2 noise_patterns := rfl

/-- Claim C10: when no block lies on page 0, `extract_title` returns the
literal "Untitled" (not the empty string). -/
theorem C10_untitled (cfg : Config) (blocks : List TextBlock) (fs : FontStats)
    (h : blocks.filter (fun b => b.page == 0) = []) :
    extract_title cfg blocks fs = "Untitled" := by
  unfold extract_title
  rw [h]
  rfl

/-- Claim C10 (witness): the single-block document living on page 1. -/
theorem C10_witness :
    c10Blocks.filter (fun b => b.page == 0) = [] ∧
    extract_title defaultConfig c10Blocks (analyze_font_statistics c10Blocks)
      = "Untitled" :=
  ⟨by with_unfolding_all decide,
   C10_untitled defaultConfig c10Blocks (analyze_font_statistics c10Blocks)
     (by with_unfolding_all decide)⟩

end Adobe1A
